import Mathlib

/-!
Verification development for the adaptive-ingestion / hybrid-placement core
(`analyzer.py`, `drift_detector.py`, `classifier.py`, `metadata_manager.py`).

The Python code is shallowly embedded: Python floats are modelled by `ℚ`
(the code only ever performs exact decimal arithmetic on them), Python sets
by `Finset String` where only set content is ever observed, and by
insertion-ordered duplicate-free `List String` where the code iterates over
them; dicts keyed by strings become insertion-ordered association lists.
Fallible operations (dict subscripting that can raise `KeyError`, file
loading) return `Except`/`Option`.
-/

namespace DBAssign

/-- Association-list lookup (Python `d[k]` when the key is known present,
`d.get(k, default)` otherwise). -/
def alFind {α : Type} (l : List (String × α)) (k : String) : Option α :=
  (l.find? (fun p => p.1 = k)).map (·.2)

/-- Association-list lookup with a default value. -/
def alGetD {α : Type} (l : List (String × α)) (k : String) (d : α) : α :=
  (alFind l k).getD d

/-- Python `k in d` membership test on a dict. -/
def alContains {α : Type} (l : List (String × α)) (k : String) : Bool :=
  l.any (fun p => p.1 = k)

/-- Overwrite the value at a key, keeping dict insertion order; append if new
(Python `d[k] = v`). -/
def alSet {α : Type} (l : List (String × α)) (k : String) (v : α) :
    List (String × α) :=
  if alContains l k then l.map (fun p => if p.1 = k then (k, v) else p)
  else l ++ [(k, v)]

/-- Remove a key (Python `del d[k]`). -/
def alErase {α : Type} (l : List (String × α)) (k : String) :
    List (String × α) :=
  l.filter (fun p => ¬ p.1 = k)

/-- Python `max(xs, key=f)` over a non-empty list: the first element whose
key is maximal (later elements replace the current best only on a strictly
greater key). -/
def pyMaxBy {α : Type} (key : α → ℚ) : List α → Option α
  | [] => none
  | x :: xs => some (xs.foldl (fun acc y => if key acc < key y then y else acc) x)

/-- Python `max(xs, key=len)` over a non-empty list. -/
def pyMaxByLen {α : Type} : List (List α) → Option (List α)
  | [] => none
  | x :: xs =>
      some (xs.foldl (fun acc y => if acc.length < y.length then y else acc) x)

/-- Python `max(xs)` over a list of rationals; the source always guards the
empty case separately, where it substitutes `1.0`. -/
def listMaxQ : List ℚ → ℚ
  | [] => 1
  | x :: xs => xs.foldl max x

/-- First-occurrence deduplication: models turning a Python list into a
`set`/`Counter` key sequence (CPython preserves first-insertion order for
`Counter`/`dict`; plain `set` order is unspecified, so any duplicate-free
enumeration is a faithful model). -/
def dedupFirst (l : List String) : List String :=
  l.foldl (fun acc t => if t ∈ acc then acc else acc ++ [t]) []

/-- `s.add(x)` on a Python set modelled as an insertion-ordered list. -/
def setAdd (l : List String) (x : String) : List String :=
  if x ∈ l then l else l ++ [x]

/-- Insert into a sorted list, keeping order. -/
def insSorted (x : String) : List String → List String
  | [] => [x]
  | y :: ys => if x ≤ y then x :: y :: ys else y :: insSorted x ys

/-- Python `sorted(xs)` for the duplicate-free string lists this program
sorts (a stable insertion sort; on duplicate-free input every correct sort
produces the same strictly increasing enumeration). -/
def pySorted (l : List String) : List String :=
  l.foldr insSorted []

end DBAssign

namespace DBAssign

/-! ## drift_detector.py — `TypeDriftDetector` -/

/-- One entry of a field's sliding window
(`{'types': set, 'distribution': dict, 'batch_id': int}`); `types` is the
Python set's enumeration as a duplicate-free list. -/
structure WindowEntry where
  types : List String
  distribution : List (String × ℚ)
  batch_id : ℕ
  deriving Repr, DecidableEq

/-- One quarantine event appended by `quarantine_field`. -/
structure DriftEvent where
  field : String
  action : String
  reason : String
  timestamp : ℕ
  deriving Repr, DecidableEq

/-- The detector's state (`TypeDriftDetector.__init__`). -/
structure DState where
  window_size : ℕ
  drift_threshold : ℚ
  field_windows : List (String × List WindowEntry)
  quarantined_fields : List String
  drift_events : List DriftEvent
  type_sequences : List (String × List String)
  deriving Repr, DecidableEq

/-- `TypeDriftDetector(window_size=50, drift_threshold=0.20)`. -/
def dInit : DState :=
  { window_size := 50, drift_threshold := 0.20, field_windows := []
    quarantined_fields := [], drift_events := [], type_sequences := [] }

/-- `TypeDriftDetector.update_field_types(field, batch_types)`.
`batch_types` is the Python set enumerated as a duplicate-free list. -/
def updateFieldTypes (st : DState) (field : String) (batch_types : List String) :
    DState :=
  let types_list := pySorted batch_types
  -- defaultdict access `self.type_sequences[field]` inserts [] when missing
  let seq := alGetD st.type_sequences field []
  let seq :=
    if types_list ≠ seq.drop (seq.length - 1) then
      let s := seq ++ types_list
      if s.length > 10 then s.drop (s.length - 10) else s
    else seq
  let type_dist : List (String × ℚ) :=
    if batch_types.length > 1 then
      batch_types.map (fun t => (t, 1 / (batch_types.length : ℚ)))
    else
      match batch_types with
      | [] => []
      | t :: _ => [(t, 1)]
  let w := alGetD st.field_windows field []
  let w := w ++ [{ types := batch_types, distribution := type_dist
                   batch_id := w.length }]
  let w := if w.length > st.window_size then w.drop (w.length - st.window_size)
           else w
  { st with
    type_sequences := alSet st.type_sequences field seq
    field_windows := alSet st.field_windows field w }

/-- `TypeDriftDetector.detect_flip_patterns(field)` (read-only: every
subscript is guarded by a membership test, so no defaultdict insertion
happens). -/
def detectFlipPatterns (st : DState) (field : String) : List String :=
  let seq := alGetD st.type_sequences field []
  if ¬ alContains st.type_sequences field ∨ seq.length < 3 then []
  else
    let idxs := List.range (seq.length - 2)
    let pats := idxs.foldl (fun acc i =>
      let a := seq.getD i ""
      let b := seq.getD (i + 1) ""
      let c := seq.getD (i + 2) ""
      if (a = "str" ∨ a = "string") ∧ (b = "int" ∨ b = "float" ∨ b = "number")
          ∧ (c = "str" ∨ c = "string") then
        acc ++ ["str→num→str"]
      else if (a = "int" ∨ a = "float" ∨ a = "number")
          ∧ (b = "str" ∨ b = "string")
          ∧ (c = "int" ∨ c = "float" ∨ c = "number") then
        acc ++ ["num→str→num"]
      else if a = c ∧ a ≠ b then
        acc ++ [a ++ "→" ++ b ++ "→" ++ a]
      else acc) []
    -- `list(set(patterns))`: deduplicated; set order is unspecified, we keep
    -- first occurrence
    dedupFirst pats

/-- Result dictionary of `calculate_drift_score`. (`window_count` is absent
from the cold-start dictionary in the source and is never read anywhere; we
fill it with 0 there.) -/
structure DriftResult where
  drift_score : ℚ
  dominant_type : String
  type_shares : List (String × ℚ)
  has_drift : Bool
  flip_patterns : List String
  window_count : ℕ
  deriving Repr, DecidableEq

/-- The aggregated `Counter` of `calculate_drift_score` (lines 82-88): each
type observed anywhere in the retained window, keyed in first-occurrence
order of the concatenated type enumerations, mapped to the number of window
entries it occurs in (one vote per batch — each entry's `types` is a set,
so a type is counted at most once per entry). -/
def allTypesOf (w : List WindowEntry) : List (String × ℕ) :=
  (dedupFirst (w.flatMap (fun e => e.types))).map
    (fun t => (t, (w.flatMap (fun e => e.types)).count t))

/-- The `type_shares` dictionary of `calculate_drift_score` (line 91). -/
def typeSharesOf (w : List WindowEntry) : List (String × ℚ) :=
  (allTypesOf w).map (fun p => (p.1, (p.2 : ℚ) / (w.length : ℚ)))

/-- The dictionary returned by `calculate_drift_score` on cold start (field
unknown or fewer than 2 retained window entries). `window_count` is absent
from this dictionary in the source and never read anywhere; we fill in 0. -/
def coldDriftResult : DriftResult :=
  { drift_score := 0, dominant_type := "unknown", type_shares := []
    has_drift := false, flip_patterns := [], window_count := 0 }

/-- `TypeDriftDetector.calculate_drift_score(field)` (read-only). -/
def calculateDriftScore (st : DState) (field : String) : DriftResult :=
  let w := alGetD st.field_windows field []
  if ¬ alContains st.field_windows field ∨ w.length < 2 then
    coldDriftResult
  else
    let type_shares := typeSharesOf w
    let max_share := if type_shares ≠ [] then listMaxQ (type_shares.map (·.2))
                     else 1
    let drift_score := 1 - max_share
    let dominant_type :=
      if type_shares ≠ [] then
        match pyMaxBy (·.2) type_shares with
        | some p => p.1
        | none => "unknown"
      else "unknown"
    let flip_patterns := detectFlipPatterns st field
    let has_drift := drift_score ≥ st.drift_threshold
    { drift_score := drift_score, dominant_type := dominant_type
      type_shares := type_shares, has_drift := has_drift
      flip_patterns := flip_patterns, window_count := w.length }

/-- `format(x, '.2f')`: round to 2 decimals, ties to even, then print. The
floats in this program are exact small-denominator decimals, for which this
agrees with CPython. -/
def fmt2 (q : ℚ) : String :=
  let x := q * 100
  let f : ℤ := ⌊x⌋
  let r := x - (f : ℚ)
  let n : ℤ :=
    if r < 1/2 then f else if 1/2 < r then f + 1
    else if f % 2 = 0 then f else f + 1
  let sign := if n < 0 then "-" else ""
  let m := n.natAbs
  let d := m % 100
  sign ++ toString (m / 100) ++ "." ++ (if d < 10 then "0" else "") ++
    toString d

/-- `format(x, '.0%')`: percentage with 0 decimals, ties to even. -/
def fmtPct (q : ℚ) : String :=
  let x := q * 100
  let f : ℤ := ⌊x⌋
  let r := x - (f : ℚ)
  let n : ℤ :=
    if r < 1/2 then f else if 1/2 < r then f + 1
    else if f % 2 = 0 then f else f + 1
  toString n ++ "%"

/-- Python `'sep'.join(xs)`. -/
def strJoin (sep : String) (xs : List String) : String :=
  String.intercalate sep xs

/-- Result dictionary of `should_quarantine_field`. -/
structure QResult where
  should_quarantine : Bool
  reason : String
  drift_analysis : DriftResult
  deriving Repr, DecidableEq

/-- `TypeDriftDetector.should_quarantine_field(field)` (read-only). -/
def shouldQuarantineField (st : DState) (field : String) : QResult :=
  let drift_analysis := calculateDriftScore st field
  if field ∈ st.quarantined_fields then
    { should_quarantine := true, reason := "already_quarantined"
      drift_analysis := drift_analysis }
  else if drift_analysis.has_drift then
    let reason := "high_drift_score_" ++ fmt2 drift_analysis.drift_score
    let reason :=
      if drift_analysis.flip_patterns ≠ [] then
        reason ++ "_with_patterns_" ++ strJoin "+" drift_analysis.flip_patterns
      else reason
    { should_quarantine := true, reason := reason
      drift_analysis := drift_analysis }
  else if drift_analysis.flip_patterns.length ≥ 2 then
    { should_quarantine := true
      reason := "multiple_flip_patterns_" ++
        strJoin "+" drift_analysis.flip_patterns
      drift_analysis := drift_analysis }
  else
    { should_quarantine := false, reason := "stable"
      drift_analysis := drift_analysis }

/-- `TypeDriftDetector.quarantine_field(field, reason)`. -/
def quarantineField (st : DState) (field : String) (reason : String) :
    Bool × DState :=
  if field ∉ st.quarantined_fields then
    (true,
      { st with
        quarantined_fields := st.quarantined_fields ++ [field]
        drift_events := st.drift_events ++
          [{ field := field, action := "quarantined", reason := reason
             timestamp := st.drift_events.length }] })
  else (false, st)

/-- `TypeDriftDetector.generate_drift_report(field)` (read-only). -/
def generateDriftReport (st : DState) (field : String) : String :=
  let qc := shouldQuarantineField st field
  let da := qc.drift_analysis
  if da.type_shares = [] then
    "Mixed data: '" ++ field ++ "' - no type data available"
  else
    let shares := strJoin ", "
      (da.type_shares.map (fun p => p.1 ++ " " ++ fmtPct p.2))
    let report := "Mixed data: '" ++ field ++ "' showed type drift (" ++
      shares ++ ")"
    let report := if qc.should_quarantine then report ++ "; routed to Mongo"
                  else report ++ "; stable enough for SQL"
    let confidence := max 0.1 (1 - da.drift_score)
    let report := report ++ ". Confidence=" ++ fmt2 confidence
    if da.flip_patterns ≠ [] then
      report ++ " (patterns: " ++ strJoin ", " da.flip_patterns ++ ")"
    else report

/-- The detector's state-mutating operations (the remaining public methods
are read-only: they assign no attribute and every dict subscript is guarded
by a membership test). -/
inductive DOp where
  | update (field : String) (batch_types : List String)
  | quarantine (field : String) (reason : String)
  deriving Repr, DecidableEq

/-- Apply one mutating operation. -/
def applyDOp (st : DState) : DOp → DState
  | .update f ts => updateFieldTypes st f ts
  | .quarantine f r => (quarantineField st f r).2

/-- Apply a sequence of operations, oldest first. -/
def applyDOps (st : DState) (ops : List DOp) : DState :=
  ops.foldl applyDOp st

end DBAssign

namespace DBAssign

/-! ## analyzer.py — value model and semantic helpers -/

/-- The closed value model for record fields (spec section 6: string, number,
boolean, null, nested map, nested sequence). Nested values carry their
`str()` rendering as an opaque payload, since only that rendering and the
`isinstance(value, (dict, list))` test are ever observed. -/
inductive PyVal where
  | vstr (s : String)
  | vint (n : ℤ)
  | vbool (b : Bool)
  | vnone
  | vdict (repr : String)
  | vlist (repr : String)
  deriving Repr, DecidableEq

/-- Python `type(value).__name__`. -/
def PyVal.typeName : PyVal → String
  | .vstr _ => "str"
  | .vint _ => "int"
  | .vbool _ => "bool"
  | .vnone => "NoneType"
  | .vdict _ => "dict"
  | .vlist _ => "list"

/-- Python `str(value)`. -/
def PyVal.strRepr : PyVal → String
  | .vstr s => s
  | .vint n => toString n
  | .vbool b => if b then "True" else "False"
  | .vnone => "None"
  | .vdict r => r
  | .vlist r => r

/-- Python `isinstance(value, (dict, list))`. -/
def PyVal.isNested : PyVal → Bool
  | .vdict _ => true
  | .vlist _ => true
  | _ => false

/-- Python `s.isdigit()` (ASCII digits; the data model contains none of the
exotic Unicode digit characters). -/
def pyIsDigit (s : String) : Bool :=
  ¬ s.isEmpty ∧ s.toList.all Char.isDigit

/-- Python `v.replace('.', '').replace('-', '').isdigit()` — the numeric-ish
test used by both semantic detectors. -/
def numericish (v : String) : Bool :=
  pyIsDigit ((v.replace "." "").replace "-" "")

/-- Leading-segment test used by the substring search. -/
def leadsList : List Char → List Char → Bool
  | [], _ => true
  | _ :: _, [] => false
  | a :: as, b :: bs => a = b && leadsList as bs

/-- Substring search over char lists. -/
def containsSub (hay needle : List Char) : Bool :=
  match hay with
  | [] => needle.isEmpty
  | _ :: t => leadsList needle hay || containsSub t needle

/-- Python `needle in hay` on strings. -/
def strContains (hay needle : String) : Bool :=
  containsSub hay.toList needle.toList

/-- One octet of `analyzer.py`'s IPv4 regex:
`25[0-5] | 2[0-4][0-9] | [01]?[0-9][0-9]?`. -/
def ipOctet (s : String) : Bool :=
  match s.toList with
  | [a] => a.isDigit
  | [a, b] => a.isDigit && b.isDigit
  | [a, b, c] =>
      (a = '2' && b = '5' && '0' ≤ c && c ≤ '5') ||
      (a = '2' && '0' ≤ b && b ≤ '4' && c.isDigit) ||
      ((a = '0' || a = '1') && b.isDigit && c.isDigit)
  | _ => false

/-- `ip_pattern.match(v)` of `analyzer.py` (anchored on both ends; the octet
classes exclude `.`, so the regex matches exactly the strings splitting into
four octets). -/
def ipMatch (s : String) : Bool :=
  match s.split (· = '.') with
  | [a, b, c, d] => ipOctet a && ipOctet b && ipOctet c && ipOctet d
  | _ => false

/-- Character class `[a-zA-Z0-9._%+-]` (email local part). -/
def localChar (c : Char) : Bool :=
  c.isAlphanum || c = '.' || c = '_' || c = '%' || c = '+' || c = '-'

/-- Character class `[a-zA-Z0-9.-]` (email domain part). -/
def domChar (c : Char) : Bool :=
  c.isAlphanum || c = '.' || c = '-'

/-- `email_pattern.match(v)` of `analyzer.py`:
`^[a-zA-Z0-9._%+-]+@[a-zA-Z0-9.-]+\.[a-zA-Z]{2,}$`. Neither class admits
`@`, so a match forces exactly one `@`; the final `[a-zA-Z]{2,}$` contains no
dots, so the separating `\.` must be the last dot after the `@`. -/
def emailMatch (s : String) : Bool :=
  match s.split (· = '@') with
  | [l, r] =>
      let parts := r.split (· = '.')
      let t := parts.getLastD ""
      let d := String.intercalate "." parts.dropLast
      (!l.isEmpty) && l.toList.all localChar &&
      decide (parts.length ≥ 2) &&
      (!d.isEmpty) && d.toList.all domChar &&
      decide (t.length ≥ 2) && t.toList.all (fun c => c.isAlpha)
  | _ => false

/-- Hex-digit class `[0-9a-fA-F]`. -/
def hexChar (c : Char) : Bool :=
  c.isDigit || ('a' ≤ c && c ≤ 'f') || ('A' ≤ c && c ≤ 'F')

/-- `uuid_pattern.match(v)` of `analyzer.py`: five dash-separated hex groups
of lengths 8-4-4-4-12 (the hex class excludes `-`). -/
def uuidMatch (s : String) : Bool :=
  match s.split (· = '-') with
  | [a, b, c, d, e] =>
      decide (a.length = 8) && decide (b.length = 4) &&
      decide (c.length = 4) && decide (d.length = 4) &&
      decide (e.length = 12) &&
      (a ++ b ++ c ++ d ++ e).toList.all hexChar
  | _ => false

/-- `timestamp_pattern.match(v)` of `analyzer.py`:
`^\d{4}-\d{2}-\d{2}[T\s]\d{2}:\d{2}:\d{2}` — a prefix match (no `$`). -/
def timestampMatch (s : String) : Bool :=
  match s.toList with
  | y1 :: y2 :: y3 :: y4 :: '-' :: m1 :: m2 :: '-' :: d1 :: d2 :: sep ::
      h1 :: h2 :: ':' :: n1 :: n2 :: ':' :: s1 :: s2 :: _ =>
      [y1, y2, y3, y4, m1, m2, d1, d2, h1, h2, n1, n2, s1, s2].all
        Char.isDigit &&
      (sep = 'T' || sep = ' ' || sep = '\t' || sep = '\n' || sep = '\r' ||
        sep = '\x0b' || sep = '\x0c')
  | _ => false

/-- Result dictionary of `detect_type_ambiguity`. -/
structure AmbiguityInfo where
  has_type_ambiguity : Bool
  types_detected : List String
  ambiguity_score : ℚ
  deriving Repr, DecidableEq

/-- String classification inside `detect_type_ambiguity`. All sampled values
are `str(value)` strings, so only the `isinstance(value, str)` branch is
live and the `except` arm is unreachable. -/
def ambClassify (v : String) : String :=
  if pyIsDigit v then "potential_int"
  else if numericish v then "potential_float"
  else if v.toLower = "true" ∨ v.toLower = "false" then "potential_bool"
  else "str"

/-- `analyzer.detect_type_ambiguity(field_name, values_sample)`. -/
def detectTypeAmbiguity (values_sample : List String) : AmbiguityInfo :=
  if values_sample = [] then
    { has_type_ambiguity := false, types_detected := []
      ambiguity_score := 0 }
  else
    let types_found := dedupFirst (values_sample.map ambClassify)
    { has_type_ambiguity := types_found.length > 1
      types_detected := types_found
      ambiguity_score := min 1 (((types_found.length : ℚ) - 1) / 3) }

/-- Result dictionary of `detect_semantic_type`. -/
structure SemanticInfo where
  detected_kind : String
  semantic_weight : ℚ
  avg_length : ℚ
  max_length : ℕ
  is_long_text : Bool
  deriving Repr, DecidableEq

/-- `analyzer.detect_semantic_type(field_name, values_sample)`. The sample
is the analyzer's `values_sample` set enumerated in insertion order; all its
members are already strings, so `str(v)` is the identity. -/
def detectSemanticType (field_name : String) (values_sample : List String) :
    SemanticInfo :=
  let sample_values := values_sample.take 50
  if sample_values = [] then
    { detected_kind := "unknown", semantic_weight := 0, avg_length := 0
      max_length := 0, is_long_text := false }
  else
    let lengths := sample_values.map String.length
    let avg_length : ℚ := ((lengths.sum : ℚ)) / (lengths.length : ℚ)
    let max_length := lengths.foldl max 0
    let is_long_text := avg_length ≥ 120
    let total : ℚ := (sample_values.length : ℚ)
    let ip_matches := (sample_values.countP ipMatch : ℚ)
    let email_matches := (sample_values.countP emailMatch : ℚ)
    let uuid_matches := (sample_values.countP uuidMatch : ℚ)
    let timestamp_matches := (sample_values.countP timestampMatch : ℚ)
    let numeric_matches := (sample_values.countP numericish : ℚ)
    let base : SemanticInfo :=
      { detected_kind := "unknown", semantic_weight := 0
        avg_length := avg_length, max_length := max_length
        is_long_text := is_long_text }
    if ip_matches / total ≥ 0.8 then
      { base with detected_kind := "ip", semantic_weight := 0.15 }
    else if email_matches / total ≥ 0.8 then
      { base with detected_kind := "email", semantic_weight := 0.15 }
    else if uuid_matches / total ≥ 0.8 then
      { base with detected_kind := "uuid", semantic_weight := 0.15 }
    else if timestamp_matches / total ≥ 0.8 then
      { base with detected_kind := "timestamp", semantic_weight := 0.15 }
    else if strContains field_name.toLower "username" ∨
        strContains field_name.toLower "user_name" then
      { base with detected_kind := "username", semantic_weight := 0.15 }
    else if numeric_matches / total ≥ 0.9 then
      let unique_count := (dedupFirst sample_values).length
      if unique_count ≤ 20 then
        { base with detected_kind := "categorical", semantic_weight := 0.10 }
      else
        { base with detected_kind := "continuous", semantic_weight := 0.05 }
    else if is_long_text then
      { base with detected_kind := "long_text", semantic_weight := -0.10 }
    else base

end DBAssign

namespace DBAssign

/-! ## analyzer.py — `Analyzer` -/

/-- Python set equality on two sets modelled as duplicate-free lists. -/
def listSetEq (a b : List String) : Prop :=
  a.toFinset = b.toFinset

instance : DecidablePred fun p : List String × List String =>
    listSetEq p.1 p.2 := fun p => by unfold listSetEq; infer_instance

instance (a b : List String) : Decidable (listSetEq a b) := by
  unfold listSetEq; infer_instance

/-- One entry of a field's `batch_history`
(`{"batch": int, "present": bool, "types": set}`). The set is modelled as an
insertion-ordered duplicate-free list; the code observes it only through
set-equality comparisons and `len`. -/
structure BatchEntry where
  batch : ℕ
  present : Bool
  types : List String
  deriving Repr, DecidableEq

/-- Per-field statistics record of `Analyzer.stats`. `types` and `unique`
are observed only through cardinality, membership and set equality
(`Finset`); `values_sample` is iterated (sample order), so it is kept as an
insertion-ordered duplicate-free list. -/
structure FieldStats where
  count : ℕ
  types : List String
  unique : Finset String
  nested : Bool
  batch_history : List BatchEntry
  values_sample : List String
  deriving DecidableEq

/-- The defaultdict default for `Analyzer.stats`. -/
def fsDefault : FieldStats :=
  { count := 0, types := [], unique := ∅, nested := false
    batch_history := [], values_sample := [] }

/-- The analyzer's state (`Analyzer.__init__`). `batch_types_tracking` maps
batch number to a per-field map of type-name sets (insertion-ordered
duplicate-free lists, matching the order they are dispatched to the drift
detector in). -/
structure AState where
  total : ℕ
  batch_size : ℕ
  current_batch : ℕ
  stats : List (String × FieldStats)
  type_conflicts : List (String × List (String × String × ℕ))
  drift_detector : DState
  batch_types_tracking : List (ℕ × List (String × List String))
  deriving DecidableEq

/-- `Analyzer()`. -/
def aInit : AState :=
  { total := 0, batch_size := 10, current_batch := 0, stats := []
    type_conflicts := [], drift_detector := dInit
    batch_types_tracking := [] }

/-- Lookup in the batch-number-keyed tracking dict. -/
def btFind (l : List (ℕ × List (String × List String))) (k : ℕ) :
    Option (List (String × List String)) :=
  (l.find? (fun p => p.1 = k)).map (·.2)

/-- Write to the batch-number-keyed tracking dict. -/
def btSet (l : List (ℕ × List (String × List String))) (k : ℕ)
    (v : List (String × List String)) : List (ℕ × List (String × List String)) :=
  if l.any (fun p => p.1 = k) then
    l.map (fun p => if p.1 = k then (k, v) else p)
  else l ++ [(k, v)]

/-- `Analyzer._process_batch_drift_detection()`. -/
def processBatchDriftDetection (st : AState) : AState :=
  let prev_batch := st.current_batch - 1
  match btFind st.batch_types_tracking prev_batch with
  | none => st
  | some fields =>
      let dd := fields.foldl
        (fun dd p => updateFieldTypes dd p.1 p.2) st.drift_detector
      { st with
        drift_detector := dd
        batch_types_tracking :=
          st.batch_types_tracking.filter (fun p => ¬ p.1 = prev_batch) }

/-- The update of a field's `batch_history` performed for one (field,
value) pair: if the last entry belongs to the current batch, mark it present
and add the value's type; otherwise append a fresh present entry for the
current batch. -/
def updBatchHistory (bh : List BatchEntry) (cur : ℕ) (vt : String) :
    List BatchEntry :=
  if bh ≠ [] ∧ (bh.getLastD ⟨0, false, []⟩).batch = cur then
    bh.dropLast ++
      [{ (bh.getLastD ⟨0, false, []⟩) with
          present := true
          types := setAdd (bh.getLastD ⟨0, false, []⟩).types vt }]
  else
    bh ++ [{ batch := cur, present := true, types := [vt] }]

/-- The per-(field, value) body of the loop in `Analyzer.update`: bump the
occurrence count, record the runtime type tag and the string form, keep the
bounded sample (the size test precedes the insertion), flag nesting, and
update the current batch's presence entry. -/
def updateItem (st : AState) (field_name : String) (value : PyVal) : AState :=
  let s := alGetD st.stats field_name fsDefault
  let value_type := value.typeName
  let old_types := s.types
  let s : FieldStats :=
    { count := s.count + 1
      types := setAdd s.types value_type
      unique := insert value.strRepr s.unique
      values_sample :=
        if s.values_sample.length < 100 then
          setAdd s.values_sample value.strRepr
        else s.values_sample
      nested := if value.isNested then true else s.nested
      batch_history := updBatchHistory s.batch_history st.current_batch
        value_type }
  let tracking :=
    let cur := (btFind st.batch_types_tracking st.current_batch).getD []
    let curField := alGetD cur field_name []
    btSet st.batch_types_tracking st.current_batch
      (alSet cur field_name (setAdd curField value_type))
  let conflicts :=
    if s.types.length > 1 ∧ old_types.length < s.types.length then
      alSet st.type_conflicts field_name
        (alGetD st.type_conflicts field_name [] ++
          [(value.strRepr, value_type, st.current_batch)])
    else st.type_conflicts
  { st with
    stats := alSet st.stats field_name s
    batch_types_tracking := tracking
    type_conflicts := conflicts }

/-- `Analyzer.update(record)`. A record is the dict's items in insertion
order. -/
def analyzerUpdate (st : AState) (record : List (String × PyVal)) : AState :=
  let st := { st with total := st.total + 1 }
  let st :=
    if st.total % st.batch_size = 1 then
      let st := { st with current_batch := st.current_batch + 1 }
      let st := if st.current_batch > 1 then processBatchDriftDetection st
                else st
      { st with stats := st.stats.map (fun p =>
          (p.1, { p.2 with batch_history := p.2.batch_history ++
            [{ batch := st.current_batch, present := false, types := [] }] })) }
    else st
  record.foldl (fun st p => updateItem st p.1 p.2) st

/-- Apply `Analyzer.update` to a sequence of records, oldest first. -/
def analyzerRun (records : List (List (String × PyVal))) : AState :=
  records.foldl analyzerUpdate aInit

/-- `Analyzer.calculate_stability(field_name)`. (The method reads the field
through the `stats` defaultdict; `get_stats` only calls it for present
fields, which is the situation modelled here.) -/
def calculateStability (s : FieldStats) : ℚ :=
  if s.batch_history = [] ∨ s.batch_history.length < 2 then 1
  else
    let total_batches := s.batch_history.length
    let present_batches := (s.batch_history.filter (·.present)).length
    let presence_ratio : ℚ :=
      if total_batches > 0 then (present_batches : ℚ) / (total_batches : ℚ)
      else 0
    let present_batch_types := (s.batch_history.filter (·.present)).map (·.types)
    if present_batch_types = [] then 0
    else
      let type_consistency : ℚ :=
        match pyMaxByLen present_batch_types with
        | none => 0  -- unreachable: the list is non-empty here
        | some most_common_types =>
            -- `types == most_common_types` is Python set equality
            let consistent_batches :=
              (present_batch_types.filter
                (fun ts => listSetEq ts most_common_types)).length
            (consistent_batches : ℚ) / (present_batch_types.length : ℚ)
      min 1 (max 0 (0.6 * presence_ratio + 0.4 * type_consistency))

/-- The per-field snapshot dictionary built by `Analyzer.get_stats` (its
keys, verbatim; note there is no `has_type_conflict` key). -/
structure GSEntry where
  freq : ℚ
  types : List String
  unique_count : ℕ
  uniqueness_ratio : ℚ
  is_unique_field : Bool
  nested : Bool
  field_name : String
  has_type_ambiguity : Bool
  stability : ℚ
  semantic_info : SemanticInfo
  ambiguity_info : AmbiguityInfo
  composite_score : ℚ
  types_count : ℕ
  drift_analysis : DriftResult
  should_quarantine : Bool
  quarantine_reason : String
  drift_report : String
  deriving DecidableEq

/-- The per-field body of `Analyzer.get_stats`. -/
def getStatsEntry (st : AState) (field_name : String) (s : FieldStats) :
    GSEntry :=
  let uniqueness_ratio : ℚ :=
    if s.count > 0 then (s.unique.card : ℚ) / (s.count : ℚ) else 0
  let is_unique_field := uniqueness_ratio ≥ 0.95
  let has_type_ambiguity := s.types.length > 1
  let stability := calculateStability s
  let semantic_info := detectSemanticType field_name s.values_sample
  let ambiguity_info := detectTypeAmbiguity s.values_sample
  let drift_analysis := calculateDriftScore st.drift_detector field_name
  let quarantine_check := shouldQuarantineField st.drift_detector field_name
  let freq : ℚ := (s.count : ℚ) / (st.total : ℚ)
  let types_count := s.types.length
  let uniqueness_weight : ℚ :=
    if uniqueness_ratio ≥ 0.95 ∧ freq ≥ 0.5 then 0.20
    else if 0.70 ≤ uniqueness_ratio ∧ uniqueness_ratio < 0.95 then 0.15
    else 0
  let type_weight : ℚ := 1 - min |(types_count : ℚ) - 1| 1
  let drift_penalty := drift_analysis.drift_score * 0.3
  let score := 0.30 * freq + 0.20 * stability + 0.20 * type_weight +
    0.15 * (semantic_info.semantic_weight + 0.10) +
    0.15 * uniqueness_weight - drift_penalty
  { freq := freq, types := s.types, unique_count := s.unique.card
    uniqueness_ratio := uniqueness_ratio, is_unique_field := is_unique_field
    nested := s.nested, field_name := field_name
    has_type_ambiguity := has_type_ambiguity, stability := stability
    semantic_info := semantic_info, ambiguity_info := ambiguity_info
    composite_score := max 0 score, types_count := types_count
    drift_analysis := drift_analysis
    should_quarantine := quarantine_check.should_quarantine
    quarantine_reason := quarantine_check.reason
    drift_report := generateDriftReport st.drift_detector field_name }

/-- `Analyzer.get_stats()`: one snapshot entry per tracked field, in
insertion order. -/
def getStats (st : AState) : List (String × GSEntry) :=
  st.stats.map (fun p => (p.1, getStatsEntry st p.1 p.2))

end DBAssign

namespace DBAssign

/-! ## classifier.py — `classify_with_placement_heuristics` -/

/-- The classifier's view of one snapshot-dictionary row: exactly the keys
it subscripts. `has_type_conflict` is read with a bare `s['has_type_conflict']`
(classifier.py line 339), which raises `KeyError` when the key is absent, so
it is modelled as an `Option`; every other key is either always produced by
`get_stats` or read through `.get` with a default. -/
structure StatsRow where
  freq : ℚ
  types_count : ℕ
  uniqueness_ratio : ℚ
  stability : ℚ
  nested : Bool
  has_type_conflict : Option Bool
  semantic_info : SemanticInfo
  composite_score : ℚ
  should_quarantine : Bool
  quarantine_reason : String
  drift_analysis : DriftResult
  deriving DecidableEq

/-- The dictionary view of a `get_stats` snapshot entry, as the classifier
subscripts it: all classifier-read keys are present except
`has_type_conflict`, which `get_stats` never emits. -/
def toRow (e : GSEntry) : StatsRow :=
  { freq := e.freq, types_count := e.types_count
    uniqueness_ratio := e.uniqueness_ratio, stability := e.stability
    nested := e.nested, has_type_conflict := none
    semantic_info := e.semantic_info, composite_score := e.composite_score
    should_quarantine := e.should_quarantine
    quarantine_reason := e.quarantine_reason
    drift_analysis := e.drift_analysis }

/-- The per-field reasoning dictionary produced by
`classify_with_placement_heuristics` (the `signals` sub-dictionary is kept
inline). -/
structure PlacementReason where
  decision : String
  reason : String
  confidence : ℚ
  sig_freq : ℚ
  sig_uniqueness_ratio : ℚ
  sig_stability : ℚ
  sig_semantic_type : String
  sig_composite_score : ℚ
  sig_types_count : ℕ
  sig_semantic_weight : ℚ
  sig_drift_score : ℚ
  sig_quarantine_reason : Option String
  deriving DecidableEq

/-- The per-field body of `classify_with_placement_heuristics`, statements
in source order; the bare subscript of `has_type_conflict` raises when the
key is missing. -/
def classifyField (s : StatsRow) : Except String PlacementReason :=
  let freq := s.freq
  let types_count := s.types_count
  let uniqueness_ratio := s.uniqueness_ratio
  let stability := s.stability
  let nested := s.nested
  match s.has_type_conflict with
  | none => .error "KeyError: 'has_type_conflict'"
  | some has_type_conflict =>
    let semantic_info := s.semantic_info
    let composite_score := s.composite_score
    let should_quarantine := s.should_quarantine
    let quarantine_reason := s.quarantine_reason
    let drift_score := s.drift_analysis.drift_score
    let detected_kind := semantic_info.detected_kind
    let semantic_weight := semantic_info.semantic_weight
    let is_long_text := semantic_info.is_long_text
    let (decision, reason, confidence) :=
      if should_quarantine then
        ("mongo", "drift_quarantine_" ++ quarantine_reason,
          max 0.1 (0.9 - drift_score))
      else if has_type_conflict then
        ("mongo", "type_conflict_from_normalization", 0.9 - drift_score * 0.2)
      else if nested then
        ("mongo", "nested_structure", (1 : ℚ))
      else if is_long_text then
        ("mongo", "long_text", 0.85)
      else if detected_kind = "json-like" then
        ("mongo", "json_like_structure", 0.9)
      else if ¬ nested ∧ freq ≥ 0.60 ∧ types_count = 1 ∧ stability ≥ 0.80 ∧
          (detected_kind = "timestamp" ∨ detected_kind = "ip" ∨
           detected_kind = "email" ∨ detected_kind = "uuid" ∨
           detected_kind = "username") then
        ("sql", "sql_strong_candidate", 0.9)
      else if ¬ nested ∧ freq ≥ 0.60 ∧ types_count = 1 ∧ stability ≥ 0.80 ∧
          detected_kind = "categorical" then
        ("sql", "categorical_low_cardinality", 0.8)
      else if uniqueness_ratio ≥ 0.70 ∧ freq ≥ 0.50 ∧ types_count = 1 then
        ("sql", "semi_unique_field", 0.75)
      else if composite_score ≥ 0.65 then
        ("sql", "composite_score_threshold", min 0.9 composite_score)
      else
        ("mongo", "flexible_schema_default", 0.6)
    .ok { decision := decision, reason := reason, confidence := confidence
          sig_freq := freq, sig_uniqueness_ratio := uniqueness_ratio
          sig_stability := stability, sig_semantic_type := detected_kind
          sig_composite_score := composite_score
          sig_types_count := types_count
          sig_semantic_weight := semantic_weight
          sig_drift_score := drift_score
          sig_quarantine_reason :=
            if should_quarantine then some quarantine_reason else none }

/-- `classify_with_placement_heuristics(stats)`: loops over the snapshot in
dict order, building the decision and reasoning maps; the first `KeyError`
aborts the whole call, as in Python. -/
def classifyWithPlacementHeuristics (stats : List (String × StatsRow)) :
    Except String (List (String × String) × List (String × PlacementReason)) :=
  stats.foldlM (fun acc p => do
    let r ← classifyField p.2
    pure (acc.1 ++ [(p.1, r.decision)], acc.2 ++ [(p.1, r)])) ([], [])

/-- The call made by the pipeline (`main.py` line 51): the classifier applied
directly to the `get_stats` snapshot. -/
def classifySnapshot (st : AState) :
    Except String (List (String × String) × List (String × PlacementReason)) :=
  classifyWithPlacementHeuristics ((getStats st).map (fun p => (p.1, toRow p.2)))

end DBAssign

namespace DBAssign

/-! ## metadata_manager.py — `MetadataManager` -/

/-- Round half to even at the integers (CPython's `round`/`format`
behaviour for exact decimals). -/
def roundHE (x : ℚ) : ℤ :=
  let f : ℤ := ⌊x⌋
  let r := x - (f : ℚ)
  if r < 1/2 then f else if 1/2 < r then f + 1
  else if f % 2 = 0 then f else f + 1

/-- Python `round(x, 3)`. -/
def round3 (x : ℚ) : ℚ :=
  ((roundHE (x * 1000) : ℚ)) / 1000

/-- `metadata["data_profile"]`. -/
structure DataProfile where
  total_records : ℚ
  frequency : ℚ
  unique_count : ℕ
  uniqueness_ratio : ℚ
  is_unique_field : Bool
  has_nested_data : Bool
  composite_score : ℚ
  stability_score : ℚ
  deriving Repr, DecidableEq

/-- `metadata["type_analysis"]`. `detected_types` stores `list(type_info)`:
the observed-type set enumerated in insertion order. -/
structure TypeAnalysis where
  detected_types : List String
  type_count : ℕ
  has_type_ambiguity : Bool
  ambiguity_score : ℚ
  primary_type : String
  type_consistency : ℚ
  deriving Repr, DecidableEq

/-- `metadata["semantic_analysis"]`. -/
structure SemanticAnalysis where
  detected_kind : String
  semantic_weight : ℚ
  pattern_confidence : ℚ
  is_identifier : Bool
  is_measurement : Bool
  is_categorical : Bool
  data_classification : String
  avg_length : ℚ
  max_length : ℕ
  is_long_text : Bool
  deriving Repr, DecidableEq

/-- `metadata["placement_reasoning"]`. `decision_factors` holds the
classifier's `signals` sub-dictionary when one was supplied
(`placement_info.get("signals", {})`). -/
structure PlacementReasoningMeta where
  reason : String
  confidence : ℚ
  decision_factors : Option PlacementReason
  override_applied : Bool
  manual_review_needed : Bool
  deriving DecidableEq

/-- `metadata["drift_tracking"]`. (`drift_history` reads a key the drift
result never carries, so it is always `[]`.) -/
structure DriftTracking where
  drift_score : ℚ
  should_quarantine : Bool
  quarantine_reason : String
  drift_history : List String
  stability_trend : String
  deriving Repr, DecidableEq

/-- `metadata["quality_metrics"]`. -/
structure QualityMetrics where
  completeness : ℚ
  consistency : ℚ
  validity : ℚ
  accuracy_estimate : ℚ
  data_quality_score : ℚ
  deriving Repr, DecidableEq

/-- The indexing recommendation sub-dictionary. -/
structure IndexingRec where
  should_index : Bool
  index_type : String
  reasoning : String
  deriving Repr, DecidableEq

/-- `metadata["usage_statistics"]`. -/
structure UsageStats where
  access_frequency : String
  criticality : String
  business_importance : String
  query_optimization_potential : String
  indexing_recommendation : IndexingRec
  deriving Repr, DecidableEq

/-- One appended entry of the `schema_evolution` log. -/
structure EvoEntry where
  timestamp : String
  change_type : String
  old_types : List String
  new_types : List String
  impact_assessment : String
  deriving Repr, DecidableEq

/-- `metadata["business_context"]`. -/
structure BusinessContext where
  domain : String
  privacy_level : String
  retention_policy : String
  compliance_tags : List String
  deriving Repr, DecidableEq

/-- One field profile. The section values are `Option`s because the
freshly created skeleton holds empty dictionaries (`{}`), read back (if at
all) through `.get` with defaults. -/
structure FieldMeta where
  creation_timestamp : String
  field_name : String
  placement_decision : Option String
  data_profile : Option DataProfile
  type_analysis : Option TypeAnalysis
  semantic_analysis : Option SemanticAnalysis
  placement_reasoning : Option PlacementReasoningMeta
  drift_tracking : Option DriftTracking
  quality_metrics : Option QualityMetrics
  usage_statistics : Option UsageStats
  schema_evolution : List EvoEntry
  business_context : Option BusinessContext
  last_updated : String
  deriving DecidableEq

/-- The in-memory profile map `self.field_metadata`. -/
abbrev MetaMap : Type := List (String × FieldMeta)

/-- `MetadataManager._determine_primary_type(types)`. The final fallback
returns an arbitrary member of the Python set (`list(types)[0]`); the model
takes the head of the insertion-ordered enumeration. -/
def determinePrimaryType (types : List String) : String :=
  if types = [] then "unknown"
  else if types.length = 1 then types.headD "unknown"
  else if "str" ∈ types then "str"
  else if "int" ∈ types then "int"
  else if "float" ∈ types then "float"
  else if "bool" ∈ types then "bool"
  else if "dict" ∈ types then "dict"
  else if "list" ∈ types then "list"
  else types.headD "unknown"

/-- `MetadataManager._calculate_type_consistency(types)`. -/
def calcTypeConsistency (types : List String) : ℚ :=
  if types = [] then 0 else 1 - ((types.length : ℚ) - 1) * 0.2

/-- `MetadataManager._is_identifier_field(field_name, semantic_info)`. -/
def isIdentifierField (field_name : String) : Bool :=
  strContains field_name.toLower "id" ∨ strContains field_name.toLower "uuid" ∨
  strContains field_name.toLower "key" ∨
  strContains field_name.toLower "token" ∨
  strContains field_name.toLower "session"

/-- `MetadataManager._is_measurement_field(field_name, semantic_info)`. -/
def isMeasurementField (field_name : String) : Bool :=
  ["temperature", "pressure", "speed", "altitude", "usage", "rate",
   "level"].any (strContains field_name.toLower ·)

/-- `MetadataManager._classify_data_sensitivity(field_name)`. -/
def classifyDataSensitivity (field_name : String) : String :=
  let fl := field_name.toLower
  if ["email", "phone", "address", "name", "ssn", "credit"].any
      (strContains fl ·) then "sensitive"
  else if ["city", "country", "weather", "timezone"].any
      (strContains fl ·) then "public"
  else "internal"

/-- `MetadataManager._needs_manual_review(stats, placement_info)`. Note the
confidence default here is `1.0` (vs `0.0` in `placement_reasoning`). -/
def needsManualReview (e : GSEntry) (pl : Option PlacementReason) : Bool :=
  e.has_type_ambiguity ∨
  ((match pl with | some r => r.confidence | none => 1) < 0.7) ∨
  e.should_quarantine

/-- `MetadataManager._analyze_stability_trend(stats)`. -/
def analyzeStabilityTrend (e : GSEntry) : String :=
  if e.stability > 0.9 then "stable"
  else if e.stability > 0.7 then "mostly_stable"
  else if e.stability > 0.5 then "unstable"
  else "highly_unstable"

/-- `MetadataManager._estimate_accuracy(field_name, stats)`. -/
def estimateAccuracy (e : GSEntry) : ℚ :=
  let base : ℚ := 0.8
  let base := if e.has_type_ambiguity then base - 0.2 else base
  let base := if e.should_quarantine then base - 0.3 else base
  max 0 base

/-- `MetadataManager._calculate_overall_quality_score(quality_metrics)`. -/
def overallQualityScore (q : QualityMetrics) : ℚ :=
  round3 (q.completeness * 0.3 + q.consistency * 0.25 + q.validity * 0.25 +
    q.accuracy_estimate * 0.2)

/-- `MetadataManager._assess_field_criticality(field_name, stats)`. -/
def assessFieldCriticality (field_name : String) (e : GSEntry) : String :=
  if ["id", "user", "timestamp", "status", "amount", "payment"].any
      (strContains field_name.toLower ·) then "critical"
  else if e.freq > 0.8 then "important"
  else "standard"

/-- `MetadataManager._assess_business_importance(field_name)`. -/
def assessBusinessImportance (field_name : String) : String :=
  if ["revenue", "customer", "user", "transaction", "order"].any
      (strContains field_name.toLower ·) then "high"
  else "medium"

/-- `MetadataManager._assess_query_optimization(stats)`. -/
def assessQueryOptimization (e : GSEntry) : String :=
  if e.is_unique_field then "excellent"
  else if e.uniqueness_ratio > 0.7 then "good"
  else if e.freq > 0.8 then "moderate"
  else "low"

/-- `MetadataManager._recommend_indexing(field_name, stats)`. -/
def recommendIndexing (field_name : String) (e : GSEntry) : IndexingRec :=
  if isIdentifierField field_name then
    { should_index := true, index_type := "primary_or_unique"
      reasoning := "Identifier field - excellent for indexing" }
  else if e.uniqueness_ratio > 0.7 then
    { should_index := true, index_type := "standard"
      reasoning := "High uniqueness - good index candidate" }
  else if e.freq > 0.9 then
    { should_index := true, index_type := "standard"
      reasoning := "High frequency - likely queried often" }
  else
    { should_index := false, index_type := "none"
      reasoning := "Low indexing priority" }

/-- `MetadataManager._schema_changed(field_name, stats)`: compares the type
set currently recorded in the profile map with the snapshot's type set (both
as Python sets). -/
def schemaChanged (fm : MetaMap) (field_name : String) (e : GSEntry) : Bool :=
  if ¬ alContains fm field_name then false
  else
    let old_types :=
      (((alFind fm field_name).bind (·.type_analysis)).map
        (·.detected_types)).getD []
    ¬ listSetEq old_types e.types

/-- `MetadataManager._infer_business_domain(field_name)`. -/
def inferBusinessDomain (field_name : String) : String :=
  let fl := field_name.toLower
  if ["user", "name", "email", "phone", "profile"].any (strContains fl ·) then
    "user_management"
  else if ["city", "country", "address", "gps", "timezone"].any
      (strContains fl ·) then "location"
  else if ["device", "os", "version", "battery", "signal"].any
      (strContains fl ·) then "device"
  else if ["timestamp", "session", "event", "metric"].any
      (strContains fl ·) then "analytics"
  else if ["heart_rate", "steps", "sleep", "stress"].any
      (strContains fl ·) then "health"
  else if ["purchase", "payment", "item", "subscription"].any
      (strContains fl ·) then "commerce"
  else "general"

/-- `MetadataManager._assess_privacy_level(field_name)`. -/
def assessPrivacyLevel (field_name : String) : String :=
  let fl := field_name.toLower
  if ["email", "phone", "name", "address"].any (strContains fl ·) then "pii"
  else if ["location", "gps", "health", "biometric"].any
      (strContains fl ·) then "sensitive"
  else "standard"

/-- `MetadataManager._suggest_retention_policy(field_name)`. -/
def suggestRetentionPolicy (field_name : String) : String :=
  if assessPrivacyLevel field_name = "pii" then "7_years"
  else if assessPrivacyLevel field_name = "sensitive" then "3_years"
  else "indefinite"

/-- `MetadataManager._identify_compliance_requirements(field_name)`. -/
def identifyComplianceRequirements (field_name : String) : List String :=
  let tags : List String := []
  let tags := if assessPrivacyLevel field_name = "pii" then
    tags ++ ["GDPR", "CCPA"] else tags
  let tags := if strContains field_name.toLower "health" ∨
      strContains field_name.toLower "medical" then tags ++ ["HIPAA"]
    else tags
  if strContains field_name.toLower "payment" ∨
      strContains field_name.toLower "credit" then tags ++ ["PCI_DSS"]
  else tags

/-- The fresh skeleton created for an unseen field
(`update_field_metadata`, lines 115-130): all sections start as empty
dictionaries. -/
def freshMeta (field_name now : String) : FieldMeta :=
  { creation_timestamp := now, field_name := field_name
    placement_decision := none, data_profile := none, type_analysis := none
    semantic_analysis := none, placement_reasoning := none
    drift_tracking := none, quality_metrics := none, usage_statistics := none
    schema_evolution := [], business_context := none, last_updated := now }

/-- `MetadataManager.update_field_metadata(field_name, stats, placement_info,
analyzer_stats)`, assignments in source order. The in-place mutation of
`metadata = self.field_metadata[field_name]` is threaded functionally; in
particular `type_analysis` is overwritten with the new snapshot types
*before* `_schema_changed` is consulted, exactly as in the source. -/
def updateFieldMetadata (fm : MetaMap) (field_name : String) (e : GSEntry)
    (pl : Option PlacementReason) (analyzer_total : ℕ) (now : String) :
    MetaMap :=
  let fm := if ¬ alContains fm field_name then
      alSet fm field_name (freshMeta field_name now)
    else fm
  let m := alGetD fm field_name (freshMeta field_name now)
  let m := { m with last_updated := now }
  let m := { m with placement_decision := some (match pl with | some r => r.decision | none => "unknown") }
  let m := { m with data_profile := some (
    { total_records := e.freq * (analyzer_total : ℚ)
      frequency := e.freq
      unique_count := e.unique_count
      uniqueness_ratio := e.uniqueness_ratio
      is_unique_field := e.is_unique_field
      has_nested_data := e.nested
      composite_score := e.composite_score
      stability_score := e.stability }) }
  let type_info := e.types
  let m := { m with type_analysis := some (
    { detected_types := type_info
      type_count := type_info.length
      has_type_ambiguity := e.has_type_ambiguity
      ambiguity_score := e.ambiguity_info.ambiguity_score
      primary_type := determinePrimaryType type_info
      type_consistency := calcTypeConsistency type_info }) }
  let m := { m with semantic_analysis := some (
    { detected_kind := e.semantic_info.detected_kind
      semantic_weight := e.semantic_info.semantic_weight
      pattern_confidence := 0  -- key absent from `detect_semantic_type`
      is_identifier := isIdentifierField field_name
      is_measurement := isMeasurementField field_name
      is_categorical := e.uniqueness_ratio < 0.1
      data_classification := classifyDataSensitivity field_name
      avg_length := e.semantic_info.avg_length
      max_length := e.semantic_info.max_length
      is_long_text := e.semantic_info.is_long_text }) }
  let m := { m with placement_reasoning := some (
    { reason := match pl with | some r => r.reason | none => "unknown"
      confidence := match pl with | some r => r.confidence | none => 0
      decision_factors := pl
      override_applied := false
      manual_review_needed := needsManualReview e pl }) }
  let m := { m with drift_tracking := some (
    { drift_score := e.drift_analysis.drift_score
      should_quarantine := e.should_quarantine
      quarantine_reason := e.quarantine_reason
      drift_history := []  -- key absent from the drift result
      stability_trend := analyzeStabilityTrend e }) }
  let qm : QualityMetrics :=
    { completeness := min 1 (e.freq * 1.2)
      consistency := e.stability
      validity := (e.semantic_info.semantic_weight +
        calcTypeConsistency e.types) / 2
      accuracy_estimate := estimateAccuracy e
      data_quality_score := 0 }
  let qm2 := { qm with data_quality_score := overallQualityScore qm }
  let m := { m with quality_metrics := some qm2 }
  let m := { m with usage_statistics := some (
    { access_frequency := if e.freq > 0.7 then "high"
        else if e.freq > 0.3 then "medium" else "low"
      criticality := assessFieldCriticality field_name e
      business_importance := assessBusinessImportance field_name
      query_optimization_potential := assessQueryOptimization e
      indexing_recommendation := recommendIndexing field_name e }) }
  -- the dict has been mutated in place up to here; `_schema_changed` reads it
  let fmMid := alSet fm field_name m
  let m :=
    if schemaChanged fmMid field_name e then
      { m with schema_evolution := m.schema_evolution ++
        [{ timestamp := now
           change_type := "type_evolution"
           old_types := ((m.type_analysis.map (·.detected_types)).getD [])
           new_types := type_info
           impact_assessment := "medium" }] }
    else m
  let m := { m with business_context := some (
    { domain := inferBusinessDomain field_name
      privacy_level := assessPrivacyLevel field_name
      retention_policy := suggestRetentionPolicy field_name
      compliance_tags := identifyComplianceRequirements field_name }) }
  alSet fm field_name m

/-- The durable store's content, partitioned the way `load_metadata`
distinguishes it: absent file, unparseable bytes, an empty JSON object (on
which `list(data.values())[0]` raises `IndexError`), a legacy simple
`field → decision-string` map, or an enhanced profile map. -/
inductive StoreContent where
  | missing
  | malformed
  | emptyDict
  | simpleDict (m : List (String × String))
  | enhancedDict (m : List (String × FieldMeta))

/-- `MetadataManager._convert_simple_to_enhanced(simple_metadata)`: the
legacy placeholder profile, verbatim from the source. -/
def convertSimpleToEnhanced (simple : List (String × String)) (now : String) :
    MetaMap :=
  simple.map (fun p =>
    let dp : DataProfile :=
      { total_records := 0, frequency := 0, unique_count := 0
        uniqueness_ratio := 0, is_unique_field := false
        has_nested_data := false, composite_score := 0
        stability_score := 0 }
    let ta : TypeAnalysis :=
      { detected_types := [], type_count := 0, has_type_ambiguity := false
        ambiguity_score := 0, primary_type := "unknown"
        type_consistency := 1 }
    let sa : SemanticAnalysis :=
      { detected_kind := "unknown", semantic_weight := 0
        pattern_confidence := 0, is_identifier := false
        is_measurement := false, is_categorical := false
        data_classification := "internal", avg_length := 0, max_length := 0
        is_long_text := false }
    let pr : PlacementReasoningMeta :=
      { reason := "legacy_decision", confidence := 1
        decision_factors := none, override_applied := false
        manual_review_needed := false }
    let dt : DriftTracking :=
      { drift_score := 0, should_quarantine := false
        quarantine_reason := "none", drift_history := []
        stability_trend := "stable" }
    let qm : QualityMetrics :=
      { completeness := 1, consistency := 1, validity := 1
        accuracy_estimate := 0.8, data_quality_score := 0.9 }
    let ir : IndexingRec :=
      { should_index := false, index_type := "none"
        reasoning := "Legacy field - needs analysis" }
    let us : UsageStats :=
      { access_frequency := "medium", criticality := "standard"
        business_importance := "medium"
        query_optimization_potential := "moderate"
        indexing_recommendation := ir }
    let bc : BusinessContext :=
      { domain := "general", privacy_level := "standard"
        retention_policy := "indefinite", compliance_tags := [] }
    (p.1,
      { creation_timestamp := now, field_name := p.1
        placement_decision := some p.2
        data_profile := some dp, type_analysis := some ta
        semantic_analysis := some sa, placement_reasoning := some pr
        drift_tracking := some dt, quality_metrics := some qm
        usage_statistics := some us, schema_evolution := []
        business_context := some bc, last_updated := now }))

/-- `MetadataManager.load_metadata()` (run by the constructor): only
`FileNotFoundError` is caught; a JSON parse failure and the `IndexError` on
an empty object propagate out of the constructor. -/
def loadMetadata (c : StoreContent) (now : String) :
    Except String MetaMap :=
  match c with
  | .missing => .ok []
  | .malformed => .error "JSONDecodeError"
  | .emptyDict => .error "IndexError"
  | .simpleDict m => .ok (convertSimpleToEnhanced m now)
  | .enhancedDict m => .ok m

/-- `MetadataManager.save_metadata()`: the file write either succeeds or
raises; every exception is caught and turned into a printed report. The
in-memory map is returned untouched together with the printed line. -/
def saveMetadata (fm : MetaMap) (write_outcome : Except String Unit) :
    MetaMap × String :=
  match write_outcome with
  | .ok _ => (fm, "Saved enhanced metadata")
  | .error e => (fm, "Error saving metadata: " ++ e)

end DBAssign

namespace DBAssign

/-! ## Association-list lemmas -/

theorem alFind_cons {α : Type} (a : String × α) (l : List (String × α))
    (k : String) :
    alFind (a :: l) k = if a.1 = k then some a.2 else alFind l k := by
  by_cases h : a.1 = k <;> simp [alFind, List.find?, h]

theorem alContains_cons {α : Type} (a : String × α) (l : List (String × α))
    (k : String) :
    alContains (a :: l) k = (decide (a.1 = k) || alContains l k) := by
  simp [alContains]

theorem alContains_of_find {α : Type} (l : List (String × α)) (k : String)
    (v : α) (h : alFind l k = some v) : alContains l k = true := by
  induction l with
  | nil => simp [alFind] at h
  | cons a t ih =>
      rw [alFind_cons] at h
      rw [alContains_cons]
      by_cases ha : a.1 = k
      · simp [ha]
      · simp only [ha, if_false] at h
        simp [ha, ih h]

theorem alFind_append_single {α : Type} (l : List (String × α)) (k : String)
    (v : α) (h : alContains l k = false) :
    alFind (l ++ [(k, v)]) k = some v := by
  induction l with
  | nil => simp [alFind]
  | cons a t ih =>
      rw [alContains_cons] at h
      simp only [Bool.or_eq_false_iff, decide_eq_false_iff_not] at h
      rw [List.cons_append, alFind_cons]
      simp only [h.1, if_false]
      exact ih h.2

theorem alFind_map_overwrite {α : Type} (l : List (String × α)) (k : String)
    (v : α) (h : alContains l k = true) :
    alFind (l.map (fun p => if p.1 = k then (k, v) else p)) k = some v := by
  induction l with
  | nil => simp [alContains] at h
  | cons a t ih =>
      by_cases ha : a.1 = k
      · simp [List.map_cons, ha, alFind_cons]
      · rw [alContains_cons] at h
        simp only [Bool.or_eq_true_iff, decide_eq_true_eq] at h
        rcases h with h | h
        · exact absurd h ha
        · simp only [List.map_cons, if_neg ha]
          rw [alFind_cons]
          simp only [ha, if_false]
          exact ih h

theorem alFind_alSet_self {α : Type} (l : List (String × α)) (k : String)
    (v : α) : alFind (alSet l k v) k = some v := by
  unfold alSet
  by_cases h : alContains l k
  · simp only [h, if_true]
    exact alFind_map_overwrite l k v h
  · simp only [h, if_false]
    exact alFind_append_single l k v (by simpa using h)

theorem alGetD_eq_of_find {α : Type} (l : List (String × α)) (k : String)
    (v d : α) (h : alFind l k = some v) : alGetD l k d = v := by
  simp [alGetD, h]

end DBAssign

namespace DBAssign

/-- C1: the claim is refuted by the code — for the snapshot produced by
`Analyzer.get_stats()` after a single record `{"a": 1}` (a non-empty
snapshot, as the first conjunct certifies), `classify_with_placement_heuristics`
does not return its maps: it aborts with `KeyError('has_type_conflict')`,
because the snapshot dictionary built by `get_stats` carries no
`has_type_conflict` key while the classifier subscripts it unconditionally
(classifier.py line 339). -/
theorem c1_classifier_keyerror :
    (getStats (analyzerUpdate aInit [("a", PyVal.vint 1)])).length = 1 ∧
    classifySnapshot (analyzerUpdate aInit [("a", PyVal.vint 1)]) =
      .error "KeyError: 'has_type_conflict'" :=
  ⟨rfl, rfl⟩

/-- C3 counterexample: the claim says *any* unloadable store content yields
an empty profile map without raising, but `load_metadata` catches only
`FileNotFoundError`; on a store whose bytes are not valid JSON the parse
error propagates out of the constructor, and on a valid-but-empty JSON
object the `list(data.values())[0]` probe raises `IndexError`. -/
theorem c3_counterexample :
    loadMetadata StoreContent.malformed "t0" = .error "JSONDecodeError" ∧
    loadMetadata StoreContent.emptyDict "t0" = .error "IndexError" :=
  ⟨rfl, rfl⟩

/-- C3 (amended): a *missing* durable store is not fatal — the constructor
starts with an empty profile map without raising; and a failure inside
`save_metadata` is swallowed (reported as a printed line), never raises out
of the call, and leaves the in-memory profile map unchanged. Store contents
that exist but cannot be parsed (or parse to an empty object) do raise. -/
theorem c3_load_save (fm : MetaMap) (w : Except String Unit) :
    loadMetadata StoreContent.missing "t0" = .ok [] ∧
    (saveMetadata fm w).1 = fm :=
  ⟨rfl, by unfold saveMetadata; cases w <;> rfl⟩

end DBAssign

namespace DBAssign

theorem listSetEq_refl (a : List String) : listSetEq a a := rfl

theorem schemaChanged_alSet (fm : MetaMap) (field : String) (v : FieldMeta)
    (e : GSEntry)
    (hv : ((v.type_analysis.map (fun ta => ta.detected_types)).getD []) =
      e.types) :
    schemaChanged (alSet fm field v) field e = false := by
  unfold schemaChanged
  have h1 : alContains (alSet fm field v) field = true :=
    alContains_of_find _ _ _ (alFind_alSet_self fm field v)
  simp only [h1]
  rw [alFind_alSet_self]
  simp [hv, listSetEq]

/-- C2: the claim is refuted by the code — for a field already present in
the metadata map, `update_field_metadata` *never* appends to its
`schema_evolution` log, not even when the observed type set differs from the
recorded one, because the `type_analysis` section is overwritten with the
new snapshot types (metadata_manager.py lines 149-156) before
`_schema_changed` compares that very section against the same snapshot
(lines 209, 376-382); the comparison is always new-against-new. The log is
also never overwritten or truncated: the profile after the update carries
`schema_evolution` exactly equal to the one stored before. -/
theorem c2_schema_evolution_never_appended (fm : MetaMap) (field : String)
    (e : GSEntry) (pl : Option PlacementReason) (tot : ℕ) (now : String)
    (meta : FieldMeta) (h : alFind fm field = some meta) :
    ∃ m', alFind (updateFieldMetadata fm field e pl tot now) field = some m' ∧
      m'.schema_evolution = meta.schema_evolution := by
  have hc : alContains fm field = true := alContains_of_find _ _ _ h
  unfold updateFieldMetadata
  simp only [hc, not_true, if_false]
  rw [alGetD_eq_of_find _ _ _ _ h]
  rw [schemaChanged_alSet _ _ _ _ (by simp)]
  simp only [Bool.false_eq_true, if_false]
  exact ⟨_, alFind_alSet_self _ _ _, rfl⟩

/-- A stored profile recording observed types `{"int"}` for field
`temperature` with an empty evolution log. -/
def c2Meta : FieldMeta :=
  { freshMeta "temperature" "t0" with
    type_analysis := some
      { detected_types := ["int"], type_count := 1
        has_type_ambiguity := false, ambiguity_score := 0
        primary_type := "int", type_consistency := 1 } }

/-- A genuine snapshot entry for `temperature` whose observed type set is
`{"str"}`: produced by the embedded pipeline from the single record
`{"temperature": "hot"}`. -/
def c2Entry : GSEntry :=
  let st := analyzerUpdate aInit [("temperature", PyVal.vstr "hot")]
  getStatsEntry st "temperature" (alGetD st.stats "temperature" fsDefault)

/-- C2 witness: the recorded type set `{"int"}` differs from the snapshot's
`{"str"}`, yet the update leaves the evolution log exactly as it was (here:
empty), where the claim demands an appended entry. -/
theorem c2_witness :
    (¬ listSetEq ["int"] c2Entry.types) ∧
    (∃ m', alFind (updateFieldMetadata [("temperature", c2Meta)]
        "temperature" c2Entry none 1 "t1") "temperature" = some m' ∧
      m'.schema_evolution = c2Meta.schema_evolution) :=
  ⟨by decide,
   c2_schema_evolution_never_appended [("temperature", c2Meta)] "temperature"
     c2Entry none 1 "t1" c2Meta rfl⟩

end DBAssign

namespace DBAssign

theorem foldlMax_mem {α β : Type} [LinearOrder β] (key : α → β) (x : α)
    (xs : List α) :
    xs.foldl (fun acc y => if key acc < key y then y else acc) x = x ∨
    xs.foldl (fun acc y => if key acc < key y then y else acc) x ∈ xs := by
  induction xs generalizing x with
  | nil => simp
  | cons z zs ih =>
      simp only [List.foldl_cons]
      by_cases hc : key x < key z
      · simp only [hc, if_true]
        rcases ih z with h | h
        · right; simp [h]
        · right; simp [h]
      · simp only [hc, if_false]
        rcases ih x with h | h
        · left; exact h
        · right; simp [h]

theorem foldlMax_le {α β : Type} [LinearOrder β] (key : α → β) (x : α)
    (xs : List α) :
    ∀ y, (y = x ∨ y ∈ xs) →
      key y ≤ key (xs.foldl (fun acc y => if key acc < key y then y else acc) x) := by
  induction xs generalizing x with
  | nil =>
      intro y hy
      simp only [List.not_mem_nil, or_false] at hy
      simp [hy]
  | cons z zs ih =>
      intro y hy
      simp only [List.foldl_cons]
      have hbase : key x ≤ key (if key x < key z then z else x) := by
        by_cases hc : key x < key z <;> simp [hc, le_of_lt]
      have hz : key z ≤ key (if key x < key z then z else x) := by
        by_cases hc : key x < key z <;> simp [hc]
        exact le_of_not_lt hc
      rcases hy with rfl | hy
      · exact le_trans hbase (ih _ _ (Or.inl rfl))
      · rcases List.mem_cons.mp hy with rfl | hy
        · exact le_trans hz (ih _ _ (Or.inl rfl))
        · exact ih _ _ (Or.inr hy)

theorem pyMaxByLen_spec {α : Type} (l : List (List α)) (mc : List α)
    (h : pyMaxByLen l = some mc) :
    mc ∈ l ∧ ∀ ts ∈ l, ts.length ≤ mc.length := by
  match l with
  | [] => simp [pyMaxByLen] at h
  | x :: xs =>
      simp only [pyMaxByLen, Option.some_inj] at h
      subst h
      constructor
      · rcases foldlMax_mem (List.length) x xs with h | h
        · rw [h]; exact List.mem_cons_self _ _
        · exact List.mem_cons_of_mem _ h
      · intro ts hts
        exact foldlMax_le (List.length) x xs ts
          (by rcases List.mem_cons.mp hts with rfl | h
              · exact Or.inl rfl
              · exact Or.inr h)

/-- Modelled from the claim's words (spec section 4.1): `type_consistency`
uses the *most frequently recurring* type-set among present batches, with
frequency ties broken toward the type-set with the most member types. -/
def stability_claimed (hist : List BatchEntry) : ℚ :=
  if hist.length < 2 then 1
  else
    let total := hist.length
    let presentE := hist.filter (·.present)
    let presence : ℚ := (presentE.length : ℚ) / (total : ℚ)
    let pbt := presentE.map (·.types)
    let freqOf : List String → ℕ :=
      fun ts => (pbt.filter (fun u => listSetEq u ts)).length
    let best := pbt.foldl (fun acc ts =>
      match acc with
      | none => some ts
      | some b =>
          if freqOf b < freqOf ts ∨ (freqOf b = freqOf ts ∧
              b.length < ts.length) then some ts
          else some b) none
    match best with
    | none => 0
    | some b =>
        min 1 (max 0 (0.6 * presence +
          0.4 * ((freqOf b : ℚ) / (pbt.length : ℚ))))

/-- The field history refuting C4: three present batches with type sets
`{"int"}`, `{"int"}`, `{"int","str"}`. The most frequently recurring set is
`{"int"}` (2 of 3), so the claim's formula yields
`0.6 + 0.4·(2/3) = 13/15`; the code instead compares against
`max(present_batch_types, key=len)` — the *largest* set `{"int","str"}` —
and returns `0.6 + 0.4·(1/3) = 11/15`. -/
def c4FS : FieldStats :=
  { count := 3, types := ["int", "str"], unique := {"1", "2", "x"}
    nested := false
    batch_history :=
      [{ batch := 1, present := true, types := ["int"] },
       { batch := 2, present := true, types := ["int"] },
       { batch := 3, present := true, types := ["int", "str"] }]
    values_sample := ["1", "2", "x"] }

/-- C4 counterexample: on `c4FS` the code's stability score is `11/15`, the
claim's formula gives `13/15`; they disagree. -/
theorem c4_counterexample :
    calculateStability c4FS = 11/15 ∧
    stability_claimed c4FS.batch_history = 13/15 ∧
    calculateStability c4FS ≠ stability_claimed c4FS.batch_history := by
  have e1 : decide (({"int"} : Finset String) = {"int", "str"}) = false := by
    decide
  have e2 : decide (({"int", "str"} : Finset String) = {"int"}) = false := by
    decide
  have e3 : decide (({"int"} : Finset String) = {"int"}) = true := by decide
  have e4 : decide (({"int", "str"} : Finset String) = {"int", "str"}) =
      true := by decide
  have h1 : calculateStability c4FS = 11/15 := by
    norm_num [calculateStability, c4FS, pyMaxByLen, listSetEq, List.filter,
      e1, e2, e3, e4, List.cons_ne_nil]
  have h2 : stability_claimed c4FS.batch_history = 13/15 := by
    norm_num [stability_claimed, c4FS, listSetEq, List.filter, e1, e2, e3,
      e4, List.cons_ne_nil]
  refine ⟨h1, h2, ?_⟩
  rw [h1, h2]
  norm_num

/-- C4 (amended): the stability score is always in `[0,1]`; it equals
exactly `1.0` whenever the field has fewer than 2 batch-history entries;
with at least 2 entries and no present batch it is `0`; otherwise it equals
`0.6·(fraction of batches in which the field was present) plus
0.4·(fraction of present-batches whose type-set equals the selected
type-set), clamped to [0,1]` — where the selected type-set is not the most
frequently recurring one but the first present-batch type-set of maximal
cardinality (Python `max(present_batch_types, key=len)`). -/
theorem c4_stability_score (s : FieldStats) :
    (0 ≤ calculateStability s ∧ calculateStability s ≤ 1) ∧
    (s.batch_history.length < 2 → calculateStability s = 1) ∧
    (2 ≤ s.batch_history.length →
      ((s.batch_history.filter (·.present)).map (·.types) = [] →
        calculateStability s = 0) ∧
      (∀ mc, pyMaxByLen ((s.batch_history.filter (·.present)).map (·.types)) =
          some mc →
        mc ∈ (s.batch_history.filter (·.present)).map (·.types) ∧
        (∀ ts ∈ (s.batch_history.filter (·.present)).map (·.types),
          ts.length ≤ mc.length) ∧
        calculateStability s =
          min 1 (max 0 (0.6 *
            ((s.batch_history.countP (·.present) : ℚ) /
              (s.batch_history.length : ℚ)) +
            0.4 *
            ((((s.batch_history.filter (·.present)).map (·.types)).countP
                (fun ts => listSetEq ts mc) : ℚ) /
              (((s.batch_history.filter (·.present)).map (·.types)).length :
                ℚ)))))) := by
  constructor
  · unfold calculateStability
    by_cases h1 : s.batch_history = [] ∨ s.batch_history.length < 2
    · simp [h1]
    · simp only [h1, if_false]
      by_cases h2 : (s.batch_history.filter (·.present)).map (·.types) = []
      · simp [h2]
      · simp only [h2, if_false]
        constructor
        · positivity
        · apply min_le_left
  · constructor
    · intro hlt
      unfold calculateStability
      have : s.batch_history = [] ∨ s.batch_history.length < 2 := Or.inr hlt
      simp [this]
    · intro hge
      have hne : ¬ (s.batch_history = [] ∨ s.batch_history.length < 2) := by
        push_neg
        constructor
        · intro hnil; rw [hnil] at hge; simp at hge
        · omega
      constructor
      · intro h2
        unfold calculateStability
        simp [hne, h2]
      · intro mc hmc
        obtain ⟨hmem, hle⟩ := pyMaxByLen_spec _ _ hmc
        refine ⟨hmem, hle, ?_⟩
        unfold calculateStability
        have h2 : ¬ ((s.batch_history.filter (·.present)).map (·.types) = []) := by
          intro h; rw [h] at hmem; simp at hmem
        simp only [hne, if_false, h2]
        rw [hmc]
        have hpos : s.batch_history.length > 0 := by omega
        simp only [hpos, if_true]
        simp only [List.countP_eq_length_filter]

end DBAssign

namespace DBAssign

/-- C4 witness: the amended statement applied to the concrete history
`c4FS` (3 batches, all present), with the selected type-set being the
first maximum-cardinality one, `{"int","str"}`. -/
theorem c4_witness :
    0 ≤ calculateStability c4FS ∧
    calculateStability c4FS =
      min 1 (max 0 (0.6 * ((c4FS.batch_history.countP (·.present) : ℚ) /
        (c4FS.batch_history.length : ℚ)) +
        0.4 * ((((c4FS.batch_history.filter (·.present)).map (·.types)).countP
            (fun ts => listSetEq ts ["int", "str"]) : ℚ) /
          (((c4FS.batch_history.filter (·.present)).map (·.types)).length :
            ℚ)))) :=
  ⟨(c4_stability_score c4FS).1.1,
   (((c4_stability_score c4FS).2.2 (by decide)).2 ["int", "str"]
     (by rfl)).2.2⟩

end DBAssign

namespace DBAssign

/-- A neutral semantic-analysis result. -/
def c5Sem : SemanticInfo :=
  { detected_kind := "unknown", semantic_weight := 0, avg_length := 0
    max_length := 0, is_long_text := false }

/-- A neutral (cold-start) drift result. -/
def c5Drift : DriftResult :=
  { drift_score := 0, dominant_type := "unknown", type_shares := []
    has_drift := false, flip_patterns := [], window_count := 0 }

/-- A snapshot row for a nested field that is also quarantined, with the
`has_type_conflict` key present (and false). -/
def c5Row2 : StatsRow :=
  { freq := 1, types_count := 1, uniqueness_ratio := 0, stability := 1
    nested := true, has_type_conflict := some false, semantic_info := c5Sem
    composite_score := 0, should_quarantine := true
    quarantine_reason := "already_quarantined", drift_analysis := c5Drift }

/-- A snapshot row for a nested field as `get_stats` actually emits it: no
`has_type_conflict` key. -/
def c5Row1 : StatsRow :=
  { c5Row2 with has_type_conflict := none, should_quarantine := false
                quarantine_reason := "stable" }

/-- A nested-field row with the key present, neither quarantined nor
conflicted. -/
def c5Row3 : StatsRow :=
  { c5Row2 with should_quarantine := false, quarantine_reason := "stable" }

/-- C5 counterexample: two nested-field snapshot rows on which the claim
fails. On `c5Row1` — a row shaped exactly like `get_stats` output (no
`has_type_conflict` key) — the classifier raises instead of returning a
DOCUMENT decision at all. On `c5Row2` — nested *and* quarantined, with the
key present — the classifier does return `mongo`, but the quarantine rule
fires first: the reason is `drift_quarantine_already_quarantined`, not
`nested_structure`, and the confidence is 0.9, not 1.0. -/
theorem c5_counterexample :
    (c5Row1.nested = true ∧
      classifyField c5Row1 = .error "KeyError: 'has_type_conflict'") ∧
    (c5Row2.nested = true ∧
      ∃ r, classifyField c5Row2 = .ok r ∧ r.decision = "mongo" ∧
        r.reason = "drift_quarantine_already_quarantined" ∧
        r.reason ≠ "nested_structure" ∧ r.confidence ≠ 1) := by
  refine ⟨⟨rfl, rfl⟩, rfl, ?_⟩
  simp only [classifyField, c5Row2, c5Sem, c5Drift]
  refine ⟨_, rfl, rfl, by decide, by decide, ?_⟩
  norm_num

/-- C5 (amended): for every snapshot row whose nested flag is true and whose
`has_type_conflict` entry is present (so the classifier returns at all), the
decision is `mongo` (DOCUMENT) — on every call, regardless of all other
signals; and whenever neither of the two earlier rules fires (the field is
not quarantined and carries no type conflict), the reason is
`nested_structure` with confidence exactly 1.0. -/
theorem c5_nested_always_document (s : StatsRow) (b : Bool)
    (hn : s.nested = true) (hc : s.has_type_conflict = some b) :
    ∃ r, classifyField s = .ok r ∧ r.decision = "mongo" ∧
      (s.should_quarantine = false → b = false →
        r.reason = "nested_structure" ∧ r.confidence = 1) := by
  by_cases hq : s.should_quarantine = true
  · simp only [classifyField, hc, hq, if_true]
    refine ⟨_, rfl, rfl, ?_⟩
    intro h
    exact absurd h (by simp)
  · have hq' : s.should_quarantine = false := by
      revert hq; cases s.should_quarantine <;> simp
    cases b with
    | true =>
        simp only [classifyField, hc, hq', Bool.false_eq_true, if_false,
          if_true]
        refine ⟨_, rfl, rfl, ?_⟩
        intro _ h
        exact absurd h (by simp)
    | false =>
        simp only [classifyField, hc, hq', hn, Bool.false_eq_true, if_false,
          if_true]
        exact ⟨_, rfl, rfl, fun _ _ => ⟨rfl, rfl⟩⟩

/-- C5 witness: the amended statement applied to a concrete nested,
unquarantined, conflict-free row. -/
theorem c5_witness :
    ∃ r, classifyField c5Row3 = .ok r ∧ r.decision = "mongo" ∧
      (c5Row3.should_quarantine = false → false = false →
        r.reason = "nested_structure" ∧ r.confidence = 1) :=
  c5_nested_always_document c5Row3 false rfl rfl

end DBAssign

namespace DBAssign

/-! ## Lemmas about the drift-score aggregation -/

theorem alFind_none_of_not_contains {α : Type} (l : List (String × α))
    (k : String) (h : alContains l k = false) : alFind l k = none := by
  induction l with
  | nil => simp [alFind]
  | cons a t ih =>
      rw [alContains_cons] at h
      simp only [Bool.or_eq_false_iff, decide_eq_false_iff_not] at h
      rw [alFind_cons]
      simp only [h.1, if_false]
      exact ih h.2

theorem alContains_of_getD_ne {β : Type} (l : List (String × List β))
    (k : String) (h : alGetD l k [] ≠ []) : alContains l k = true := by
  by_cases hc : alContains l k
  · exact hc
  · exfalso
    apply h
    rw [alGetD, alFind_none_of_not_contains l k (by simpa using hc)]
    rfl

theorem mem_foldl_setAdd (l : List String) (acc : List String) (t : String) :
    t ∈ l.foldl (fun acc t => if t ∈ acc then acc else acc ++ [t]) acc ↔
      t ∈ acc ∨ t ∈ l := by
  induction l generalizing acc with
  | nil => simp
  | cons x xs ih =>
      simp only [List.foldl_cons]
      by_cases hx : x ∈ acc
      · rw [if_pos hx, ih]
        constructor
        · rintro (h | h)
          · exact Or.inl h
          · exact Or.inr (List.mem_cons_of_mem _ h)
        · rintro (h | h)
          · exact Or.inl h
          · rcases List.mem_cons.mp h with rfl | h
            · exact Or.inl hx
            · exact Or.inr h
      · rw [if_neg hx, ih]
        simp only [List.mem_append, List.mem_singleton, List.mem_cons]
        tauto

theorem mem_dedupFirst (l : List String) (t : String) :
    t ∈ dedupFirst l ↔ t ∈ l := by
  rw [dedupFirst, mem_foldl_setAdd]
  simp

/-- The share one type receives in `calculate_drift_score`: the number of
retained window entries whose type set contains it (one vote per batch),
divided by the number of retained entries. -/
def shareOf (w : List WindowEntry) (t : String) : ℚ :=
  ((w.countP (fun e => t ∈ e.types)) : ℚ) / (w.length : ℚ)

theorem count_flat_eq_countP (w : List WindowEntry) (t : String)
    (hnd : ∀ e ∈ w, e.types.Nodup) :
    (w.flatMap (·.types)).count t = w.countP (fun e => t ∈ e.types) := by
  induction w with
  | nil => simp
  | cons e rest ih =>
      have he : e.types.Nodup := hnd e (List.mem_cons_self _ _)
      have hrest : ∀ x ∈ rest, x.types.Nodup :=
        fun x hx => hnd x (List.mem_cons_of_mem _ hx)
      simp only [List.flatMap_cons, List.count_append, List.countP_cons]
      rw [ih hrest]
      by_cases hm : t ∈ e.types
      · rw [List.count_eq_one_of_mem he hm]
        simp [hm, Nat.add_comm]
      · rw [List.count_eq_zero.mpr hm]
        simp [hm]

theorem foldlQMax_mem (x : ℚ) (xs : List ℚ) :
    xs.foldl max x = x ∨ xs.foldl max x ∈ xs := by
  induction xs generalizing x with
  | nil => simp
  | cons z zs ih =>
      simp only [List.foldl_cons]
      rcases max_choice x z with hm | hm <;> rw [hm]
      · rcases ih x with h | h
        · left; exact h
        · right; simp [h]
      · rcases ih z with h | h
        · right; simp [h]
        · right; simp [h]

theorem foldlQMax_le (x : ℚ) (xs : List ℚ) :
    ∀ y, (y = x ∨ y ∈ xs) → y ≤ xs.foldl max x := by
  induction xs generalizing x with
  | nil =>
      intro y hy
      simp only [List.not_mem_nil, or_false] at hy
      simp [hy]
  | cons z zs ih =>
      intro y hy
      simp only [List.foldl_cons]
      rcases hy with rfl | hy
      · exact le_trans (le_max_left y z) (ih _ _ (Or.inl rfl))
      · rcases List.mem_cons.mp hy with rfl | hy
        · exact le_trans (le_max_right x y) (ih _ _ (Or.inl rfl))
        · exact ih _ _ (Or.inr hy)

theorem listMaxQ_spec (l : List ℚ) (hne : l ≠ []) :
    listMaxQ l ∈ l ∧ ∀ y ∈ l, y ≤ listMaxQ l := by
  cases l with
  | nil => exact absurd rfl hne
  | cons x xs =>
      simp only [listMaxQ]
      constructor
      · rcases foldlQMax_mem x xs with h | h
        · rw [h]; exact List.mem_cons_self _ _
        · exact List.mem_cons_of_mem _ h
      · intro y hy
        rcases List.mem_cons.mp hy with h | h
        · exact h ▸ foldlQMax_le x xs x (Or.inl rfl)
        · exact foldlQMax_le x xs y (Or.inr h)

theorem pyMaxBy_spec {α : Type} (key : α → ℚ) (l : List α) (r : α)
    (h : pyMaxBy key l = some r) :
    r ∈ l ∧ ∀ y ∈ l, key y ≤ key r := by
  cases l with
  | nil => simp [pyMaxBy] at h
  | cons x xs =>
      simp only [pyMaxBy, Option.some_inj] at h
      subst h
      constructor
      · rcases foldlMax_mem key x xs with h | h
        · rw [h]; exact List.mem_cons_self _ _
        · exact List.mem_cons_of_mem _ h
      · intro y hy
        exact foldlMax_le key x xs y
          (by rcases List.mem_cons.mp hy with rfl | h
              · exact Or.inl rfl
              · exact Or.inr h)

end DBAssign


namespace DBAssign

theorem mem_typeSharesOf (w : List WindowEntry) (p : String × ℚ) :
    p ∈ typeSharesOf w ↔ ∃ t ∈ dedupFirst (w.flatMap (fun e => e.types)),
      p = (t, ((w.flatMap (fun e => e.types)).count t : ℚ) / (w.length : ℚ)) := by
  simp only [typeSharesOf, allTypesOf, List.map_map, List.mem_map,
    Function.comp_apply]
  constructor
  · rintro ⟨t, ht, rfl⟩
    exact ⟨t, ht, rfl⟩
  · rintro ⟨t, ht, rfl⟩
    exact ⟨t, ht, rfl⟩

theorem share_val_eq_shareOf (w : List WindowEntry) (t : String)
    (hnd : ∀ e ∈ w, e.types.Nodup) :
    ((w.flatMap (fun e => e.types)).count t : ℚ) / (w.length : ℚ) =
      shareOf w t := by
  rw [shareOf, count_flat_eq_countP w t hnd]

theorem typeSharesOf_ne_nil (w : List WindowEntry)
    (hne : ∃ e ∈ w, e.types ≠ []) : typeSharesOf w ≠ [] := by
  obtain ⟨e, he, hte⟩ := hne
  obtain ⟨t, ht⟩ := List.exists_mem_of_ne_nil _ hte
  have hflat : t ∈ w.flatMap (fun e => e.types) :=
    List.mem_flatMap.mpr ⟨e, he, ht⟩
  have hdd := (mem_dedupFirst _ t).mpr hflat
  simp only [typeSharesOf, allTypesOf]
  intro hcontra
  rw [List.map_eq_nil_iff, List.map_eq_nil_iff] at hcontra
  rw [hcontra] at hdd
  simp at hdd

/-- Workhorse characterisation of `calculate_drift_score`, shared by the
drift-score claims. -/
theorem driftScore_formula (st : DState) (field : String) (w : List WindowEntry)
    (hw : alGetD st.field_windows field [] = w)
    (hnd : ∀ e ∈ w, e.types.Nodup) :
    (w.length < 2 → calculateDriftScore st field = coldDriftResult) ∧
    (2 ≤ w.length → (∃ e ∈ w, e.types ≠ []) →
      ∃ m : ℚ,
        (calculateDriftScore st field).drift_score = 1 - m ∧
        (∀ t, (∃ e ∈ w, t ∈ e.types) → shareOf w t ≤ m) ∧
        (∃ e ∈ w, (calculateDriftScore st field).dominant_type ∈ e.types) ∧
        shareOf w (calculateDriftScore st field).dominant_type = m ∧
        (∀ p ∈ (calculateDriftScore st field).type_shares,
          p.2 = shareOf w p.1 ∧ ∃ e ∈ w, p.1 ∈ e.types)) := by
  constructor
  · intro hlen
    unfold calculateDriftScore
    rw [if_pos (by rw [hw]; exact Or.inr hlen)]
  · intro hlen hne
    have hwne : w ≠ [] := by
      intro h; rw [h] at hlen; simp at hlen
    have hcont : alContains st.field_windows field = true :=
      alContains_of_getD_ne _ _ (by rw [hw]; exact hwne)
    have hsharesne : typeSharesOf w ≠ [] := typeSharesOf_ne_nil w hne
    have hr : calculateDriftScore st field =
        { drift_score := 1 - listMaxQ ((typeSharesOf w).map (fun p => p.2))
          dominant_type :=
            match pyMaxBy (fun p => p.2) (typeSharesOf w) with
            | some p => p.1
            | none => "unknown"
          type_shares := typeSharesOf w
          has_drift := (1 - listMaxQ ((typeSharesOf w).map (fun p => p.2))) ≥
            st.drift_threshold
          flip_patterns := detectFlipPatterns st field
          window_count := w.length } := by
      unfold calculateDriftScore
      rw [hw]
      rw [if_neg (by rw [hcont]; push_neg; exact ⟨rfl, by omega⟩)]
      dsimp only
      rw [if_pos hsharesne, if_pos hsharesne]
    rw [hr]
    obtain ⟨hm_mem, hm_ub⟩ :=
      listMaxQ_spec ((typeSharesOf w).map (fun p => p.2))
        (by simpa using hsharesne)
    obtain ⟨q, hq⟩ : ∃ q, pyMaxBy (fun p => p.2) (typeSharesOf w) = some q := by
      cases hts : typeSharesOf w with
      | nil => exact absurd hts hsharesne
      | cons a l => exact ⟨_, rfl⟩
    obtain ⟨hq_mem, hq_ub⟩ := pyMaxBy_spec _ _ _ hq
    have hq2m : q.2 = listMaxQ ((typeSharesOf w).map (fun p => p.2)) := by
      apply le_antisymm
      · exact hm_ub _ (List.mem_map.mpr ⟨q, hq_mem, rfl⟩)
      · obtain ⟨p, hp_mem, hp_val⟩ := List.mem_map.mp hm_mem
        rw [← hp_val]
        exact hq_ub p hp_mem
    obtain ⟨tq, htq_dd, htq_eq⟩ := (mem_typeSharesOf w q).mp hq_mem
    have htq_flat : tq ∈ w.flatMap (fun e => e.types) :=
      (mem_dedupFirst _ tq).mp htq_dd
    refine ⟨listMaxQ ((typeSharesOf w).map (fun p => p.2)), rfl, ?_, ?_, ?_, ?_⟩
    · intro t ⟨e, he, ht⟩
      have hflat : t ∈ w.flatMap (fun e => e.types) :=
        List.mem_flatMap.mpr ⟨e, he, ht⟩
      have hp : (t, ((w.flatMap (fun e => e.types)).count t : ℚ) /
          (w.length : ℚ)) ∈ typeSharesOf w :=
        (mem_typeSharesOf w _).mpr ⟨t, (mem_dedupFirst _ t).mpr hflat, rfl⟩
      rw [← share_val_eq_shareOf w t hnd]
      exact hm_ub _ (List.mem_map.mpr ⟨_, hp, rfl⟩)
    · rw [hq]
      dsimp only
      have : q.1 = tq := by rw [htq_eq]
      rw [this]
      exact List.mem_flatMap.mp htq_flat
    · rw [hq]
      dsimp only
      have h1 : q.1 = tq := by rw [htq_eq]
      rw [h1]
      have h2 : ((w.flatMap (fun e => e.types)).count tq : ℚ) /
          (w.length : ℚ) = listMaxQ ((typeSharesOf w).map (fun p => p.2)) := by
        rw [htq_eq] at hq2m
        exact hq2m
      rw [share_val_eq_shareOf w tq hnd] at h2
      exact h2
    · intro p hp
      obtain ⟨t, ht_dd, ht_eq⟩ := (mem_typeSharesOf w p).mp hp
      have hflat : t ∈ w.flatMap (fun e => e.types) := (mem_dedupFirst _ t).mp ht_dd
      subst ht_eq
      exact ⟨share_val_eq_shareOf w t hnd, List.mem_flatMap.mp hflat⟩


end DBAssign

namespace DBAssign



end DBAssign

namespace DBAssign

/-- C6: for every field, with at least 2 retained window entries (each
entry's type enumeration, being a Python set, lists no type twice, and at
least one entry carries a type), `calculate_drift_score` returns
`drift_score = 1 − m` where `m` is the maximum type share — each type's
share being the number of retained window entries containing it (one vote
per batch, not per record) divided by the number of retained entries — and
`dominant_type` is a type of maximal share (occurring in the window, its
share equal to `m`), while `type_shares` maps exactly the occurring types to
exactly these shares. With fewer than 2 retained window entries it returns
`drift_score 0.0` and `dominant_type "unknown"`. -/
theorem c6_drift_score_formula (st : DState) (field : String)
    (w : List WindowEntry) (hw : alGetD st.field_windows field [] = w)
    (hnd : ∀ e ∈ w, e.types.Nodup) :
    (w.length < 2 → calculateDriftScore st field = coldDriftResult) ∧
    (2 ≤ w.length → (∃ e ∈ w, e.types ≠ []) →
      ∃ m : ℚ,
        (calculateDriftScore st field).drift_score = 1 - m ∧
        (∀ t, (∃ e ∈ w, t ∈ e.types) → shareOf w t ≤ m) ∧
        (∃ e ∈ w, (calculateDriftScore st field).dominant_type ∈ e.types) ∧
        shareOf w (calculateDriftScore st field).dominant_type = m ∧
        (∀ p ∈ (calculateDriftScore st field).type_shares,
          p.2 = shareOf w p.1 ∧ ∃ e ∈ w, p.1 ∈ e.types)) :=
  ⟨fun h => (driftScore_formula st field w hw hnd).1 h,
   fun h hne => (driftScore_formula st field w hw hnd).2 h hne⟩

/-- Every type share is at most 1: a type is counted in at most every
retained entry. -/
theorem shareOf_le_one (w : List WindowEntry) (t : String)
    (hw : w ≠ []) : shareOf w t ≤ 1 := by
  rw [shareOf]
  have hlen : (0 : ℚ) < (w.length : ℚ) := by
    have : 0 < w.length := List.length_pos.mpr hw
    exact_mod_cast this
  rw [div_le_one hlen]
  exact_mod_cast List.countP_le_length _

/-- C10: if some single type tag occurs in every retained window entry of a
field with at least 2 retained entries, `calculate_drift_score` returns
`drift_score = 0` — even when the entries carry additional type tags,
because each type gets one vote per entry it appears in, so the omnipresent
type's share is exactly 1. -/
theorem c10_omnipresent_type_zero_drift (st : DState) (field : String)
    (w : List WindowEntry) (t : String)
    (hw : alGetD st.field_windows field [] = w)
    (hnd : ∀ e ∈ w, e.types.Nodup) (hlen : 2 ≤ w.length)
    (hall : ∀ e ∈ w, t ∈ e.types) :
    (calculateDriftScore st field).drift_score = 0 := by
  have hwne : w ≠ [] := by intro h; rw [h] at hlen; simp at hlen
  obtain ⟨e0, he0⟩ := List.exists_mem_of_ne_nil _ hwne
  have hne : ∃ e ∈ w, e.types ≠ [] := by
    refine ⟨e0, he0, ?_⟩
    intro hnil
    have := hall e0 he0
    rw [hnil] at this
    simp at this
  obtain ⟨m, hdrift, hub, hdom_occ, hdom_eq, hshares⟩ :=
    (driftScore_formula st field w hw hnd).2 hlen hne
  have hshare_t : shareOf w t = 1 := by
    rw [shareOf]
    have hcount : w.countP (fun e => t ∈ e.types) = w.length :=
      List.countP_eq_length.mpr (fun e he => by simpa using hall e he)
    rw [hcount]
    have : (0 : ℚ) < (w.length : ℚ) := by
      have : 0 < w.length := List.length_pos.mpr hwne
      exact_mod_cast this
    field_simp
  have hm_ge : 1 ≤ m := hshare_t ▸ hub t ⟨e0, he0, hall e0 he0⟩
  have hm_le : m ≤ 1 := hdom_eq ▸ shareOf_le_one w _ hwne
  have : m = 1 := le_antisymm hm_le hm_ge
  rw [hdrift, this]
  norm_num

/-- C10 witness: a reachable three-entry window where `"int"` occurs in
every entry alongside extra types. -/
def c10St : DState :=
  updateFieldTypes (updateFieldTypes (updateFieldTypes dInit
    "x" ["int"]) "x" ["int", "str"]) "x" ["int", "bool"]

/-- C10 witness: drift is zero although the window mixes three type sets. -/
theorem c10_witness :
    (calculateDriftScore c10St "x").drift_score = 0 :=
  c10_omnipresent_type_zero_drift c10St "x"
    (alGetD c10St.field_windows "x" []) "int" rfl (by decide) (by decide)
    (by decide)

end DBAssign

namespace DBAssign

/-- A reachable detector state with a two-entry window for field `x`:
types `{"int"}` in the first completed batch, `{"str"}` in the second. -/
def c6St : DState :=
  updateFieldTypes (updateFieldTypes dInit "x" ["int"]) "x" ["str"]

/-- That state's retained window for `x`. -/
def c6W : List WindowEntry := alGetD c6St.field_windows "x" []

/-- C6 witness: the formula instantiated on the concrete two-batch window. -/
theorem c6_witness :
    ∃ m : ℚ,
      (calculateDriftScore c6St "x").drift_score = 1 - m ∧
      (∀ t, (∃ e ∈ c6W, t ∈ e.types) → shareOf c6W t ≤ m) ∧
      (∃ e ∈ c6W, (calculateDriftScore c6St "x").dominant_type ∈ e.types) ∧
      shareOf c6W (calculateDriftScore c6St "x").dominant_type = m ∧
      (∀ p ∈ (calculateDriftScore c6St "x").type_shares,
        p.2 = shareOf c6W p.1 ∧ ∃ e ∈ c6W, p.1 ∈ e.types) :=
  (c6_drift_score_formula c6St "x" c6W rfl (by decide)).2 (by decide)
    (by decide)

end DBAssign

namespace DBAssign

theorem quarantined_mono (st : DState) (op : DOp) (f : String)
    (h : f ∈ st.quarantined_fields) :
    f ∈ (applyDOp st op).quarantined_fields := by
  cases op with
  | update f' ts => exact h
  | quarantine f' r =>
      simp only [applyDOp, quarantineField]
      by_cases hf : f' ∉ st.quarantined_fields
      · rw [if_pos hf]
        exact List.mem_append_left _ h
      · rw [if_neg hf]
        exact h

theorem quarantined_mono_ops (st : DState) (ops : List DOp) (f : String)
    (h : f ∈ st.quarantined_fields) :
    f ∈ (applyDOps st ops).quarantined_fields := by
  induction ops generalizing st with
  | nil => exact h
  | cons op rest ih =>
      exact ih (applyDOp st op) (quarantined_mono st op f h)

/-- C7: quarantine is monotonic. Once a field is in the quarantine set, it
stays there across any sequence of detector operations (window updates and
further quarantine calls — the remaining public methods perform no state
writes), and `should_quarantine_field` keeps answering
`should_quarantine = true` with reason `"already_quarantined"` for it. -/
theorem c7_quarantine_monotonic (st : DState) (f : String) (ops : List DOp)
    (h : f ∈ st.quarantined_fields) :
    f ∈ (applyDOps st ops).quarantined_fields ∧
    (shouldQuarantineField (applyDOps st ops) f).should_quarantine = true ∧
    (shouldQuarantineField (applyDOps st ops) f).reason =
      "already_quarantined" := by
  have hmem := quarantined_mono_ops st ops f h
  refine ⟨hmem, ?_, ?_⟩ <;>
    simp [shouldQuarantineField, hmem]

/-- C7 witness: quarantine `"x"` manually, then feed two stable-looking
batches; the verdict stays `already_quarantined`. -/
theorem c7_witness :
    "x" ∈ (applyDOps (quarantineField dInit "x" "manual").2
      [DOp.update "x" ["int"], DOp.update "x" ["int"]]).quarantined_fields ∧
    (shouldQuarantineField (applyDOps (quarantineField dInit "x" "manual").2
      [DOp.update "x" ["int"], DOp.update "x" ["int"]])
        "x").should_quarantine = true ∧
    (shouldQuarantineField (applyDOps (quarantineField dInit "x" "manual").2
      [DOp.update "x" ["int"], DOp.update "x" ["int"]]) "x").reason =
      "already_quarantined" :=
  c7_quarantine_monotonic (quarantineField dInit "x" "manual").2 "x"
    [DOp.update "x" ["int"], DOp.update "x" ["int"]] (by decide)

end DBAssign

namespace DBAssign

def c9St1 : DState :=
  applyDOps dInit [DOp.update "x" ["int"], DOp.update "x" ["str"]]

def c9St2 : DState :=
  applyDOps c9St1 [DOp.update "x" ["int"], DOp.update "x" ["int"],
    DOp.update "x" ["int"], DOp.update "x" ["int"]]

def c9W1 : List WindowEntry :=
  [{ types := ["int"], distribution := [("int", 1)], batch_id := 0 },
   { types := ["str"], distribution := [("str", 1)], batch_id := 1 }]

theorem c9W1_shares : typeSharesOf c9W1 = [("int", 1/2), ("str", 1/2)] := by
  norm_num [typeSharesOf, allTypesOf, dedupFirst, List.count_cons, c9W1,
    (show ("str" : String) ≠ "int" by decide),
    (show ("int" : String) ≠ "str" by decide)]

theorem c9St1_drift : calculateDriftScore c9St1 "x" =
    { drift_score := 1/2, dominant_type := "int"
      type_shares := [("int", 1/2), ("str", 1/2)], has_drift := true
      flip_patterns := [], window_count := 2 } := by
  unfold calculateDriftScore
  rw [show alGetD c9St1.field_windows "x" [] = c9W1 from by decide]
  rw [if_neg (by
    rw [show alContains c9St1.field_windows "x" = true from by decide]
    push_neg
    exact ⟨rfl, by decide⟩)]
  dsimp only
  rw [c9W1_shares]
  rw [if_pos (by decide), if_pos (by decide)]
  rw [show detectFlipPatterns c9St1 "x" = [] from by decide]
  rw [show c9St1.drift_threshold = 0.20 from rfl]
  norm_num [listMaxQ, pyMaxBy, c9W1]

def c9W2 : List WindowEntry :=
  [{ types := ["int"], distribution := [("int", 1)], batch_id := 0 },
   { types := ["str"], distribution := [("str", 1)], batch_id := 1 },
   { types := ["int"], distribution := [("int", 1)], batch_id := 2 },
   { types := ["int"], distribution := [("int", 1)], batch_id := 3 },
   { types := ["int"], distribution := [("int", 1)], batch_id := 4 },
   { types := ["int"], distribution := [("int", 1)], batch_id := 5 }]

theorem c9W2_shares : typeSharesOf c9W2 = [("int", 5/6), ("str", 1/6)] := by
  norm_num [typeSharesOf, allTypesOf, dedupFirst, List.count_cons, c9W2,
    (show ("str" : String) ≠ "int" by decide),
    (show ("int" : String) ≠ "str" by decide)]

theorem c9St2_drift : calculateDriftScore c9St2 "x" =
    { drift_score := 1/6, dominant_type := "int"
      type_shares := [("int", 5/6), ("str", 1/6)], has_drift := false
      flip_patterns := ["num→str→num"], window_count := 6 } := by
  unfold calculateDriftScore
  rw [show alGetD c9St2.field_windows "x" [] = c9W2 from by decide]
  rw [if_neg (by
    rw [show alContains c9St2.field_windows "x" = true from by decide]
    push_neg
    exact ⟨rfl, by decide⟩)]
  dsimp only
  rw [c9W2_shares]
  rw [if_pos (by decide), if_pos (by decide)]
  rw [show detectFlipPatterns c9St2 "x" = ["num→str→num"] from by decide]
  rw [show c9St2.drift_threshold = 0.20 from rfl]
  norm_num [listMaxQ, pyMaxBy, c9W2]

/-- C9: `should_quarantine_field` and `calculate_drift_score` are pure
queries (embedded as state-free functions: the source methods assign no
attribute and every dict subscript is membership-guarded, so not even a
defaultdict insertion occurs); a field enters the quarantine set only
through `quarantine_field` — in particular a drift-based positive verdict
does not add it — and consequently the verdict can flip back: in the
concrete run below, after two conflicting batches the verdict for `x` is
positive while `x` is not in the quarantine set, and after four further
stable batches the same call answers `should_quarantine = false` with
reason `"stable"`. -/
theorem c9_queries_pure_only_quarantine_adds (st : DState) (f : String) (op : DOp)
    (h1 : f ∉ st.quarantined_fields)
    (h2 : f ∈ (applyDOp st op).quarantined_fields) :
    (∃ r, op = DOp.quarantine f r) ∧
    ((shouldQuarantineField c9St1 "x").should_quarantine = true ∧
     "x" ∉ c9St1.quarantined_fields ∧
     (shouldQuarantineField c9St2 "x").should_quarantine = false ∧
     (shouldQuarantineField c9St2 "x").reason = "stable") := by
  constructor
  · cases op with
    | update f' ts => exact absurd h2 h1
    | quarantine f' r =>
        simp only [applyDOp, quarantineField] at h2
        by_cases hf : f' ∉ st.quarantined_fields
        · rw [if_pos hf] at h2
          rcases List.mem_append.mp h2 with h | h
          · exact absurd h h1
          · simp only [List.mem_singleton] at h
            exact ⟨r, by rw [h]⟩
        · rw [if_neg hf] at h2
          exact absurd h2 h1
  · refine ⟨?_, by decide, ?_, ?_⟩
    · rw [shouldQuarantineField, c9St1_drift]
      rw [if_neg (show ¬ "x" ∈ c9St1.quarantined_fields from by decide)]
      rw [if_pos (by norm_num)]
    · rw [shouldQuarantineField, c9St2_drift]
      rw [if_neg (show ¬ "x" ∈ c9St2.quarantined_fields from by decide)]
      rw [if_neg (by norm_num), if_neg (by norm_num)]
    · rw [shouldQuarantineField, c9St2_drift]
      rw [if_neg (show ¬ "x" ∈ c9St2.quarantined_fields from by decide)]
      rw [if_neg (by norm_num), if_neg (by norm_num)]

/-- C9 witness: only the explicit `quarantine_field` call puts `x` into the
set, and the concrete positive-then-stable verdict flip. -/
theorem c9_witness :
    (∃ r, DOp.quarantine "x" "manual" = DOp.quarantine "x" r) ∧
    ((shouldQuarantineField c9St1 "x").should_quarantine = true ∧
     "x" ∉ c9St1.quarantined_fields ∧
     (shouldQuarantineField c9St2 "x").should_quarantine = false ∧
     (shouldQuarantineField c9St2 "x").reason = "stable") :=
  c9_queries_pure_only_quarantine_adds dInit "x"
    (DOp.quarantine "x" "manual") (by decide) (by decide)

end DBAssign

namespace DBAssign

theorem mem_alSet {α : Type} (l : List (String × α)) (k : String) (v : α)
    (p : String × α) (h : p ∈ alSet l k v) : p = (k, v) ∨ p ∈ l := by
  unfold alSet at h
  by_cases hc : alContains l k
  · rw [if_pos hc] at h
    obtain ⟨q, hq, hqe⟩ := List.mem_map.mp h
    by_cases hk : q.1 = k
    · rw [if_pos hk] at hqe
      exact Or.inl hqe.symm
    · rw [if_neg hk] at hqe
      exact Or.inr (hqe ▸ hq)
  · rw [if_neg hc] at h
    rcases List.mem_append.mp h with h | h
    · exact Or.inr h
    · exact Or.inl (List.mem_singleton.mp h)

theorem mem_of_alFind {α : Type} (l : List (String × α)) (k : String) (v : α)
    (h : alFind l k = some v) : ∃ k', (k', v) ∈ l := by
  induction l with
  | nil => simp [alFind] at h
  | cons a t ih =>
      rw [alFind_cons] at h
      by_cases ha : a.1 = k
      · rw [if_pos ha] at h
        refine ⟨a.1, ?_⟩
        rw [← Option.some_inj.mp h]
        simp
      · rw [if_neg ha] at h
        obtain ⟨k', hk'⟩ := ih h
        exact ⟨k', List.mem_cons_of_mem _ hk'⟩

/-- The per-field counting invariant maintained by `Analyzer.update`: every
tracked field was seen at least once, and its distinct-signature set cannot
exceed its occurrence count. -/
def CountInv (st : AState) : Prop :=
  ∀ p ∈ st.stats, 1 ≤ p.2.count ∧ p.2.unique.card ≤ p.2.count

theorem countInv_init : CountInv aInit := by
  intro p hp
  simp [aInit] at hp

theorem countInv_updateItem (st : AState) (f : String) (v : PyVal)
    (h : CountInv st) : CountInv (updateItem st f v) := by
  intro p hp
  unfold updateItem at hp
  dsimp only at hp
  rcases mem_alSet _ _ _ _ hp with hpe | hpmem
  · subst hpe
    have hbase : (alGetD st.stats f fsDefault).unique.card ≤
        (alGetD st.stats f fsDefault).count := by
      unfold alGetD
      cases hf : alFind st.stats f with
      | none => simp [fsDefault]
      | some fs =>
          obtain ⟨k', hk'⟩ := mem_of_alFind _ _ _ hf
          exact (h _ hk').2
    dsimp only
    constructor
    · omega
    · calc (insert v.strRepr (alGetD st.stats f fsDefault).unique).card
          ≤ (alGetD st.stats f fsDefault).unique.card + 1 :=
            Finset.card_insert_le _ _
        _ ≤ (alGetD st.stats f fsDefault).count + 1 := by omega
  · exact h _ hpmem

theorem countInv_record (st : AState) (rec : List (String × PyVal))
    (h : CountInv st) :
    CountInv (rec.foldl (fun st p => updateItem st p.1 p.2) st) := by
  induction rec generalizing st with
  | nil => exact h
  | cons a t ih =>
      exact ih _ (countInv_updateItem st a.1 a.2 h)

theorem countInv_batchStep (st : AState) (h : CountInv st) :
    CountInv { st with stats := st.stats.map (fun p =>
      (p.1, { p.2 with batch_history := p.2.batch_history ++
        [{ batch := st.current_batch, present := false, types := [] }] })) } := by
  intro p hp
  obtain ⟨q, hq, hqe⟩ := List.mem_map.mp hp
  obtain ⟨h1, h2⟩ := h q hq
  rw [← hqe]
  exact ⟨h1, h2⟩

end DBAssign

namespace DBAssign

theorem processBatch_stats (st : AState) :
    (processBatchDriftDetection st).stats = st.stats := by
  unfold processBatchDriftDetection
  dsimp only
  cases hb : btFind st.batch_types_tracking (st.current_batch - 1) <;>
    simp [hb]

theorem countInv_stats_only (st st' : AState) (hs : st'.stats = st.stats)
    (h : CountInv st) : CountInv st' := by
  intro p hp
  rw [hs] at hp
  exact h p hp

theorem countInv_update (st : AState) (rec : List (String × PyVal))
    (h : CountInv st) : CountInv (analyzerUpdate st rec) := by
  unfold analyzerUpdate
  dsimp only
  apply countInv_record
  by_cases hb : (st.total + 1) % st.batch_size = 1
  · rw [if_pos hb]
    by_cases hc : st.current_batch + 1 > 1
    · rw [if_pos hc]
      apply countInv_batchStep
      apply countInv_stats_only _ _ (processBatch_stats _)
      exact countInv_stats_only st _ rfl h
    · rw [if_neg hc]
      apply countInv_batchStep
      exact countInv_stats_only st _ rfl h
  · rw [if_neg hb]
    exact countInv_stats_only st _ rfl h

theorem countInv_run (records : List (List (String × PyVal))) :
    CountInv (analyzerRun records) := by
  unfold analyzerRun
  induction records using List.reverseRecOn with
  | nil => exact countInv_init
  | append_singleton rs r ih =>
      rw [List.foldl_append]
      exact countInv_update _ r ih

/-- C8: after any sequence of `Analyzer.update` calls, every tracked field
has a positive occurrence count, and the `uniqueness_ratio` reported for it
by `get_stats` equals the number of distinct value signatures divided by the
occurrence count and lies in `[0, 1]`. -/
theorem c8_uniqueness_ratio (records : List (List (String × PyVal))) (f : String)
    (e : GSEntry) (h : (f, e) ∈ getStats (analyzerRun records)) :
    ∃ fs : FieldStats, (f, fs) ∈ (analyzerRun records).stats ∧
      0 < fs.count ∧
      e.uniqueness_ratio = (fs.unique.card : ℚ) / (fs.count : ℚ) ∧
      0 ≤ e.uniqueness_ratio ∧ e.uniqueness_ratio ≤ 1 := by
  obtain ⟨p, hp, hpe⟩ := List.mem_map.mp h
  obtain ⟨hinv1, hinv2⟩ := countInv_run records p hp
  have hf : p.1 = f := congrArg Prod.fst hpe
  have he : getStatsEntry (analyzerRun records) p.1 p.2 = e :=
    congrArg Prod.snd hpe
  have hratio : e.uniqueness_ratio =
      (p.2.unique.card : ℚ) / (p.2.count : ℚ) := by
    rw [← he]
    unfold getStatsEntry
    dsimp only
    rw [if_pos (by omega)]
  have hcountpos : (0 : ℚ) < (p.2.count : ℚ) := by exact_mod_cast hinv1
  refine ⟨p.2, ?_, by omega, hratio, ?_, ?_⟩
  · rw [← hf]
    simpa using hp
  · rw [hratio]
    positivity
  · rw [hratio, div_le_one hcountpos]
    exact_mod_cast hinv2

/-- Two records both carrying `a = "v"`. -/
def c8Recs : List (List (String × PyVal)) :=
  [[("a", PyVal.vstr "v")], [("a", PyVal.vstr "v")]]

/-- The tracked statistics of field `a` after those two records. -/
def c8FS : FieldStats := alGetD (analyzerRun c8Recs).stats "a" fsDefault

/-- The snapshot entry `get_stats` reports for `a`. -/
def c8E : GSEntry := getStatsEntry (analyzerRun c8Recs) "a" c8FS

/-- C8 witness: the invariant instantiated after two concrete records (one
distinct signature over two occurrences). -/
theorem c8_witness :
    ∃ fs : FieldStats, ("a", fs) ∈ (analyzerRun c8Recs).stats ∧
      0 < fs.count ∧
      c8E.uniqueness_ratio = (fs.unique.card : ℚ) / (fs.count : ℚ) ∧
      0 ≤ c8E.uniqueness_ratio ∧ c8E.uniqueness_ratio ≤ 1 :=
  c8_uniqueness_ratio c8Recs "a" c8E (by
    unfold getStats
    rw [show (analyzerRun c8Recs).stats = [("a", c8FS)] from by decide]
    simp only [List.map_cons, List.map_nil, List.mem_singleton]
    rfl)

end DBAssign
